import Mathlib

/-!
# Verification of the RTSP rendezvous server core (`client.go`)

A shallow embedding of the per-connection RTSP request handler
(`client.handleRequest`), the run-loop dispatch (`client.run`), the
registry mutation performed by `client.close`, and the pure helper
functions (`interleavedChannelToTrack`, `trackToInterleavedChannel`,
`newTransportHeader`, `getKeyValue`, `getClientPorts`, and the path
extraction closure inside `handleRequest`).

Modelling conventions:

* Go `int` is modelled as `Int`; Go `/` and `%` (which truncate toward
  zero) are `Int.tdiv` and `Int.tmod`.
* Strings are handled at `Char` granularity; the Go code slices byte
  strings, which coincides with `Char` slicing on the ASCII inputs the
  protocol deals in.
* Go maps (`clients`, `publishers`, request headers) are modelled by
  their lookup semantics: `publishers` and the connection table are
  functions, `clients` is a list of connection identifiers used as a
  set, request headers are association lists.
* External black boxes (the `rtsp` wire codec, `net/url` parsing, the
  `gortc.io/sdp` decoder) are represented by their observable results
  carried on the request: a parsed-URL option and a parsed-SDP media
  count option.
* Connections are named by natural-number identifiers; the Go code
  identifies them by pointer.
-/

/-- Track flow kind: RTP or RTCP (`trackFlow`, `_TRACK_FLOW_RTP` /
`_TRACK_FLOW_RTCP` in the source). -/
inductive trackFlow where
  | rtp
  | rtcp
deriving DecidableEq, Repr

/-- Stream protocol (`streamProtocol`, `_STREAM_PROTOCOL_UDP` /
`_STREAM_PROTOCOL_TCP`). The Go zero value is UDP. -/
inductive streamProtocol where
  | udp
  | tcp
deriving DecidableEq, Repr

/-- One media track of a session (`track` in the source): the
client-announced RTP and RTCP ports (zero for TCP tracks). -/
structure track where
  rtpPort : Int
  rtcpPort : Int
deriving DecidableEq, Repr

/-- `interleavedChannelToTrack`: map an interleaved channel number to a
track id and flow.  Go `%` and `/` truncate toward zero. -/
def interleavedChannelToTrack (channel : Int) : Int × trackFlow :=
  if Int.tmod channel 2 = 0 then
    (Int.tdiv channel 2, trackFlow.rtp)
  else
    (Int.tdiv (channel - 1) 2, trackFlow.rtcp)

/-- `trackToInterleavedChannel`: map a track id and flow to an
interleaved channel number. -/
def trackToInterleavedChannel (id : Int) (flow : trackFlow) : Int :=
  if flow = trackFlow.rtp then
    id * 2
  else
    id * 2 + 1

/-- Split a character list on a separator character, Go
`strings.Split` semantics for a one-character separator (the empty
input yields one empty field). -/
def splitChars (sep : Char) : List Char → List (List Char)
  | [] => [[]]
  | c :: rest =>
    if c = sep then
      [] :: splitChars sep rest
    else
      match splitChars sep rest with
      | h :: t => (c :: h) :: t
      | [] => [[c]]

/-- Go `strings.Split(s, sep)` for a one-character separator, on
strings. -/
def splitOnChar (sep : Char) (s : String) : List String :=
  (splitChars sep s.data).map String.mk

/-- `newTransportHeader`: split the `Transport` header value on `;`.
The Go code stores the tokens in a `map[string]struct{}`; we keep the
token list, whose membership relation is that of the Go set. -/
def newTransportHeader (in_ : String) : List String :=
  splitOnChar ';' in_

/-- `transportHeader.getKeyValue`: find a token of the form
`key=value` and return `value`, or `""` if no token matches.  The Go
code scans the token set in map order; we scan in list order (the two
agree whenever at most one token carries the key, which is the case in
every run the claims are about). -/
def getKeyValue (th : List String) (key : String) : String :=
  match th.find? (fun t => List.isPrefixOf (key ++ "=").data t.data) with
  | some t => String.mk (t.data.drop (key ++ "=").data.length)
  | none => ""

/-- Decimal digit string to value: `none` unless the string is a
nonempty run of ASCII digits (the accepting inputs of Go
`strconv.ParseInt` after the sign). -/
def parseDigits (cs : List Char) : Option Nat :=
  if cs = [] then none
  else if cs.all (fun ch => ch.isDigit) then
    some (cs.foldl (fun a ch => a * 10 + (ch.toNat - 48)) 0)
  else none

/-- Go `strconv.ParseInt(s, 10, 64)`: optional sign, nonempty digit
run, value within the signed 64-bit range; `none` models a non-nil
error. -/
def parseIntGo (s : String) : Option Int :=
  let signDigits : Int × List Char :=
    match s.data with
    | '+' :: rest => (1, rest)
    | '-' :: rest => (-1, rest)
    | l => (1, l)
  match parseDigits signDigits.2 with
  | none => none
  | some n =>
    let v : Int := signDigits.1 * (n : Int)
    if v < -9223372036854775808 ∨ v > 9223372036854775807 then none else some v

/-- `transportHeader.getClientPorts`: parse `client_port=lo-hi` into an
integer pair, returning `(0, 0)` on any failure. -/
def getClientPorts (th : List String) : Int × Int :=
  let val := getKeyValue th "client_port"
  if val = "" then (0, 0)
  else
    match splitOnChar '-' val with
    | [a, b] =>
      match parseIntGo a, parseIntGo b with
      | some port1, some port2 => (port1, port2)
      | _, _ => (0, 0)
    | _ => (0, 0)

/-- Truncate a character list at the first `/` (the effect of Go
`ret = ret[:strings.Index(ret, "/")]` guarded by the index being
non-negative). -/
def truncSlash (l : List Char) : List Char :=
  l.takeWhile (fun ch => ch ≠ '/')

/-- The path-extraction closure of `handleRequest` on the character
list of `ur.Path`: drop the first character whenever the length
exceeds one (the code's `if len(ret) > 1 { ret = ret[1:] }`), then
truncate at the first remaining `/`. -/
def pathChars (l : List Char) : List Char :=
  truncSlash (if l.length > 1 then l.drop 1 else l)

/-- The path the server binds and matches against, as a function of
the request URL's path component. -/
def pathOf (s : String) : String :=
  String.mk (pathChars s.data)

/-- Modelled from the spec (for comparison with `pathOf`): "take the
URL path, strip one leading `/`, then truncate at the next `/` if
any". -/
def specPathChars (l : List Char) : List Char :=
  truncSlash (match l with
    | '/' :: rest => rest
    | l => l)

/-- The spec's path extraction on strings. -/
def specPathOf (s : String) : String :=
  String.mk (specPathChars s.data)

example : pathOf "/cam" = "cam" := by decide
example : pathOf "/cam/sub" = "cam" := by decide
example : pathOf "/" = "" := by decide
example : pathOf "ab" = "b" := by decide
example : specPathOf "ab" = "ab" := by decide
example : getClientPorts (newTransportHeader "RTP/AVP;unicast;client_port=5000-5001") = (5000, 5001) := by decide
example : getClientPorts (newTransportHeader "RTP/AVP;unicast;client_port=0-5001") = (0, 5001) := by decide
example : getClientPorts (newTransportHeader "RTP/AVP;unicast") = (0, 0) := by decide
example : getKeyValue (newTransportHeader "RTP/AVP/TCP;unicast;interleaved=2-3") "interleaved" = "2-3" := by decide

/-- Result of `net/url.Parse` on the request URL, as the black-box
observables the handler consumes: the path component, whether
`url.ParseQuery` succeeds on the raw query, and the first value of the
`key` query parameter when present and nonempty. -/
structure Url where
  path : String
  queryOk : Bool
  queryKey : Option String
deriving DecidableEq, Repr

/-- An RTSP request as `handleRequest` sees it (`rtsp.Request`).
`url` is `none` when `url.Parse` fails on `urlRaw`; `contentMedias`
is the black-box result of the `gortc.io/sdp` decoder on `content`
(`none` = decode error, `some n` = a session with `n` medias). -/
structure Request where
  method : String
  urlRaw : String
  url : Option Url
  headers : List (String × String)
  content : String
  contentMedias : Option Nat
deriving DecidableEq, Repr

/-- An RTSP response (`rtsp.Response`). -/
structure Response where
  statusCode : Nat
  status : String
  headers : List (String × String)
  content : String := ""
deriving DecidableEq, Repr

/-- Per-connection state (the fields of `client` the state machine
reads and writes).  Defaults are the Go zero values of a fresh
`newClient`. -/
structure Conn where
  state : String := "STARTING"
  path : String := ""
  streamSdpText : String := ""
  streamSdpParsed : Option Nat := none
  streamProtocol : streamProtocol := streamProtocol.udp
  streamTracks : List track := []
deriving DecidableEq, Repr

/-- The process-wide state (`program`): the `clients` set (as a list
of connection ids), the connection table, the `publishers` map, the
configuration the handler reads, and the set of sockets that have been
closed by `rconn.Close()`. -/
structure Prog where
  clients : List Nat
  conns : Nat → Conn
  publishers : String → Option Nat
  publishKey : String
  rtpPort : Int
  rtcpPort : Int
  closedSockets : List Nat

/-- Update one connection's record. -/
def updConn (p : Prog) (cid : Nat) (f : Conn → Conn) : Prog :=
  { p with conns := fun j => if j = cid then f (p.conns j) else p.conns j }

/-- Install a publisher (`c.p.publishers[path] = c`). -/
def pubInsert (p : Prog) (pa : String) (cid : Nat) : Prog :=
  { p with publishers := fun q => if q = pa then some cid else p.publishers q }

/-- `newClient`: register a fresh connection (state STARTING, zero
fields) in the clients set.  The caller picks an unused id; the Go
code gets freshness from pointer identity. -/
def newClient (p : Prog) (cid : Nat) : Prog :=
  { p with clients := cid :: p.clients,
           conns := fun j => if j = cid then {} else p.conns j }

/-- Outcome of `handleRequest`: the returned response together with
the `error` result.  `ok` is a nil error; `play`, `record` and
`teardown` are the control sentinels `errPlay`, `errRecord`,
`errTeardown`; `wrongKey` is `errWrongKey`; `genericErr` is any other
non-nil error; `panicked` marks a nil-pointer dereference of
`streamSdpParsed` (impossible in reachable states). -/
inductive Outcome where
  | ok (res : Response)
  | play (res : Response)
  | record (res : Response)
  | teardown
  | wrongKey
  | genericErr (msg : String)
  | panicked
deriving DecidableEq, Repr

/-- The `OPTIONS` arm of the method switch. -/
def handleOPTIONS (p : Prog) (cseq : String) : Prog × Outcome :=
  (p, Outcome.ok
    { statusCode := 200, status := "OK",
      headers := [("CSeq", cseq),
        ("Public", "DESCRIBE, ANNOUNCE, SETUP, PLAY, PAUSE, RECORD, TEARDOWN")] })

/-- The `DESCRIBE` arm: only in STARTING; look up the publisher for
the path and return its SDP bytes. -/
def handleDESCRIBE (p : Prog) (cid : Nat) (req : Request) (cseq path : String) :
    Prog × Outcome :=
  let c := p.conns cid
  if c.state ≠ "STARTING" then
    (p, Outcome.genericErr "client is in state")
  else
    match p.publishers path with
    | none => (p, Outcome.genericErr "no one is streaming on path")
    | some pubId =>
      (p, Outcome.ok
        { statusCode := 200, status := "OK",
          headers := [("CSeq", cseq), ("Content-Base", req.urlRaw),
            ("Content-Type", "application/sdp")],
          content := (p.conns pubId).streamSdpText })

/-- The publish-key check inside the `ANNOUNCE` arm: when a publish
key is configured, the URL query must parse, carry a `key` parameter,
and its first value must equal the configured key (a mismatch is the
`errWrongKey` 401); `none` means the check passed. -/
def announceKeyCheck (p : Prog) (ur : Url) : Option Outcome :=
  if p.publishKey ≠ "" then
    if ¬ur.queryOk then some (Outcome.genericErr "unable to parse query")
    else
      match ur.queryKey with
      | none => some (Outcome.genericErr "key missing")
      | some k => if k ≠ p.publishKey then some Outcome.wrongKey else none
  else none

/-- The `ANNOUNCE` arm: only in STARTING; require
`Content-Type: application/sdp` and a well-formed SDP body; check the
publish key when configured; then claim the publisher slot for the
path. -/
def handleANNOUNCE (p : Prog) (cid : Nat) (req : Request) (ur : Url)
    (cseq path : String) : Prog × Outcome :=
  let c := p.conns cid
  if c.state ≠ "STARTING" then
    (p, Outcome.genericErr "client is in state")
  else
    match req.headers.lookup "Content-Type" with
    | none => (p, Outcome.genericErr "Content-Type header missing")
    | some ct =>
      if ct ≠ "application/sdp" then
        (p, Outcome.genericErr "unsupported Content-Type")
      else
        match req.contentMedias with
        | none => (p, Outcome.genericErr "invalid SDP")
        | some medias =>
          match announceKeyCheck p ur with
          | some o => (p, o)
          | none =>
            match p.publishers path with
            | some _ => (p, Outcome.genericErr "another client is already publishing on path")
            | none =>
              let p1 := updConn p cid (fun c => { c with
                path := path,
                streamSdpText := req.content,
                streamSdpParsed := some medias,
                state := "ANNOUNCE" })
              let p2 := pubInsert p1 path cid
              (p2, Outcome.ok { statusCode := 200, status := "OK",
                                headers := [("CSeq", cseq)] })

/-- The reader (STARTING / PRE_PLAY) UDP branch of `SETUP`. -/
def setupReadUdp (p : Prog) (cid : Nat) (th : List String)
    (_transportstr cseq path : String) : Prog × Outcome :=
  let c := p.conns cid
  let ports := getClientPorts th
  if ports.1 = 0 ∨ ports.2 = 0 then
    (p, Outcome.genericErr "transport header does not have valid client ports")
  else if c.path ≠ "" ∧ path ≠ c.path then
    (p, Outcome.genericErr "path has changed")
  else
    match p.publishers path with
    | none => (p, Outcome.genericErr "no one is streaming on path")
    | some pubId =>
      if c.streamTracks.length > 0 ∧ c.streamProtocol ≠ streamProtocol.udp then
        (p, Outcome.genericErr "client want to send tracks with different protocols")
      else
        match (p.conns pubId).streamSdpParsed with
        | none => (p, Outcome.panicked)
        | some medias =>
          if c.streamTracks.length ≥ medias then
            (p, Outcome.genericErr "all the tracks have already been setup")
          else
            let p1 := updConn p cid (fun c => { c with
              path := path,
              streamProtocol := streamProtocol.udp,
              streamTracks := c.streamTracks ++ [{ rtpPort := ports.1, rtcpPort := ports.2 }],
              state := "PRE_PLAY" })
            (p1, Outcome.ok
              { statusCode := 200, status := "OK",
                headers := [("CSeq", cseq),
                  ("Transport", "RTP/AVP;unicast;client_port=" ++ toString ports.1 ++ "-"
                    ++ toString ports.2 ++ ";server_port=" ++ toString p.rtpPort ++ "-"
                    ++ toString p.rtcpPort ++ ";ssrc=1234ABCD"),
                  ("Session", "12345678")] })

/-- The reader (STARTING / PRE_PLAY) TCP branch of `SETUP`. -/
def setupReadTcp (p : Prog) (cid : Nat) (cseq path : String) : Prog × Outcome :=
  let c := p.conns cid
  if c.path ≠ "" ∧ path ≠ c.path then
    (p, Outcome.genericErr "path has changed")
  else
    match p.publishers path with
    | none => (p, Outcome.genericErr "no one is streaming on path")
    | some pubId =>
      if c.streamTracks.length > 0 ∧ c.streamProtocol ≠ streamProtocol.tcp then
        (p, Outcome.genericErr "client want to send tracks with different protocols")
      else
        match (p.conns pubId).streamSdpParsed with
        | none => (p, Outcome.panicked)
        | some medias =>
          if c.streamTracks.length ≥ medias then
            (p, Outcome.genericErr "all the tracks have already been setup")
          else
            let p1 := updConn p cid (fun c => { c with
              path := path,
              streamProtocol := streamProtocol.tcp,
              streamTracks := c.streamTracks ++ [{ rtpPort := 0, rtcpPort := 0 }],
              state := "PRE_PLAY" })
            let newLen := ((p1.conns cid).streamTracks).length
            let interleaved := toString ((newLen - 1) * 2) ++ "-" ++ toString ((newLen - 1) * 2 + 1)
            (p1, Outcome.ok
              { statusCode := 200, status := "OK",
                headers := [("CSeq", cseq),
                  ("Transport", "RTP/AVP/TCP;unicast;interleaved=" ++ interleaved),
                  ("Session", "12345678")] })

/-- The publisher (ANNOUNCE / PRE_RECORD) UDP branch of `SETUP`
(selected by the `RTP/AVP/UDP` token). -/
def setupRecordUdp (p : Prog) (cid : Nat) (th : List String)
    (_transportstr cseq : String) : Prog × Outcome :=
  let c := p.conns cid
  let ports := getClientPorts th
  if ports.1 = 0 ∨ ports.2 = 0 then
    (p, Outcome.genericErr "transport header does not have valid client ports")
  else if c.streamTracks.length > 0 ∧ c.streamProtocol ≠ streamProtocol.udp then
    (p, Outcome.genericErr "client want to send tracks with different protocols")
  else
    match c.streamSdpParsed with
    | none => (p, Outcome.panicked)
    | some medias =>
      if c.streamTracks.length ≥ medias then
        (p, Outcome.genericErr "all the tracks have already been setup")
      else
        let p1 := updConn p cid (fun c => { c with
          streamProtocol := streamProtocol.udp,
          streamTracks := c.streamTracks ++ [{ rtpPort := ports.1, rtcpPort := ports.2 }],
          state := "PRE_RECORD" })
        (p1, Outcome.ok
          { statusCode := 200, status := "OK",
            headers := [("CSeq", cseq),
              ("Transport", "RTP/AVP;unicast;client_port=" ++ toString ports.1 ++ "-"
                ++ toString ports.2 ++ ";server_port=" ++ toString p.rtpPort ++ "-"
                ++ toString p.rtcpPort ++ ";ssrc=1234ABCD"),
              ("Session", "12345678")] })

/-- The publisher (ANNOUNCE / PRE_RECORD) TCP branch of `SETUP`: the
proposed `interleaved=` value must be present and equal
`2k-(2k+1)` for the new track index `k`. -/
def setupRecordTcp (p : Prog) (cid : Nat) (th : List String)
    (cseq : String) : Prog × Outcome :=
  let c := p.conns cid
  if c.streamTracks.length > 0 ∧ c.streamProtocol ≠ streamProtocol.tcp then
    (p, Outcome.genericErr "client want to send tracks with different protocols")
  else
    match c.streamSdpParsed with
    | none => (p, Outcome.panicked)
    | some medias =>
      if c.streamTracks.length ≥ medias then
        (p, Outcome.genericErr "all the tracks have already been setup")
      else
        let interleaved := getKeyValue th "interleaved"
        if interleaved = "" then
          (p, Outcome.genericErr "transport header does not contain interleaved field")
        else
          let expInterleaved := toString (0 + c.streamTracks.length * 2) ++ "-"
            ++ toString (1 + c.streamTracks.length * 2)
          if interleaved ≠ expInterleaved then
            (p, Outcome.genericErr "wrong interleaved value")
          else
            let p1 := updConn p cid (fun c => { c with
              streamProtocol := streamProtocol.tcp,
              streamTracks := c.streamTracks ++ [{ rtpPort := 0, rtcpPort := 0 }],
              state := "PRE_RECORD" })
            (p1, Outcome.ok
              { statusCode := 200, status := "OK",
                headers := [("CSeq", cseq),
                  ("Transport", "RTP/AVP/TCP;unicast;interleaved=" ++ interleaved),
                  ("Session", "12345678")] })

/-- The `SETUP` arm of the method switch: require a `Transport` header
containing `unicast`, then dispatch on the connection state and the
transport tokens exactly as the source does (reader branch tries
`RTP/AVP` then `RTP/AVP/TCP`; publisher branch requires `mode=record`
and an unchanged path and tries `RTP/AVP/UDP` then `RTP/AVP/TCP`). -/
def handleSETUP (p : Prog) (cid : Nat) (req : Request) (cseq path : String) :
    Prog × Outcome :=
  let c := p.conns cid
  match req.headers.lookup "Transport" with
  | none => (p, Outcome.genericErr "transport header missing")
  | some transportstr =>
    let th := newTransportHeader transportstr
    if "unicast" ∉ th then
      (p, Outcome.genericErr "transport header does not contain unicast")
    else if c.state = "STARTING" ∨ c.state = "PRE_PLAY" then
      if "RTP/AVP" ∈ th then
        setupReadUdp p cid th transportstr cseq path
      else if "RTP/AVP/TCP" ∈ th then
        setupReadTcp p cid cseq path
      else
        (p, Outcome.genericErr "transport header does not contain a valid protocol")
    else if c.state = "ANNOUNCE" ∨ c.state = "PRE_RECORD" then
      if "mode=record" ∉ th then
        (p, Outcome.genericErr "transport header does not contain mode=record")
      else if path ≠ c.path then
        (p, Outcome.genericErr "path has changed")
      else if "RTP/AVP/UDP" ∈ th then
        setupRecordUdp p cid th transportstr cseq
      else if "RTP/AVP/TCP" ∈ th then
        setupRecordTcp p cid th cseq
      else
        (p, Outcome.genericErr "transport header does not contain a valid protocol")
    else
      (p, Outcome.genericErr "client is in state")

/-- The `PLAY` arm: only in PRE_PLAY with an unchanged path; the
publisher of the bound path must exist and every track must be set
up.  No state is mutated here: the driver sets the state to PLAY
after writing the response. -/
def handlePLAY (p : Prog) (cid : Nat) (cseq path : String) : Prog × Outcome :=
  let c := p.conns cid
  if c.state ≠ "PRE_PLAY" then
    (p, Outcome.genericErr "client is in state")
  else if path ≠ c.path then
    (p, Outcome.genericErr "path has changed")
  else
    match p.publishers c.path with
    | none => (p, Outcome.genericErr "no one is streaming on path")
    | some pubId =>
      match (p.conns pubId).streamSdpParsed with
      | none => (p, Outcome.panicked)
      | some medias =>
        if c.streamTracks.length ≠ medias then
          (p, Outcome.genericErr "not all tracks have been setup")
        else
          (p, Outcome.play
            { statusCode := 200, status := "OK",
              headers := [("CSeq", cseq), ("Session", "12345678")] })

/-- The `PAUSE` arm: only in PLAY with an unchanged path; moves the
state back to PRE_PLAY before responding. -/
def handlePAUSE (p : Prog) (cid : Nat) (cseq path : String) : Prog × Outcome :=
  let c := p.conns cid
  if c.state ≠ "PLAY" then
    (p, Outcome.genericErr "client is in state")
  else if path ≠ c.path then
    (p, Outcome.genericErr "path has changed")
  else
    (updConn p cid (fun c => { c with state := "PRE_PLAY" }),
     Outcome.ok
       { statusCode := 200, status := "OK",
         headers := [("CSeq", cseq), ("Session", "12345678")] })

/-- The `RECORD` arm: only in PRE_RECORD with an unchanged path and
every track set up.  No state is mutated here: the driver sets the
state to RECORD after writing the response. -/
def handleRECORD (p : Prog) (cid : Nat) (cseq path : String) : Prog × Outcome :=
  let c := p.conns cid
  if c.state ≠ "PRE_RECORD" then
    (p, Outcome.genericErr "client is in state")
  else if path ≠ c.path then
    (p, Outcome.genericErr "path has changed")
  else
    match c.streamSdpParsed with
    | none => (p, Outcome.panicked)
    | some medias =>
      if c.streamTracks.length ≠ medias then
        (p, Outcome.genericErr "not all tracks have been setup")
      else
        (p, Outcome.record
          { statusCode := 200, status := "OK",
            headers := [("CSeq", cseq), ("Session", "12345678")] })

/-- `client.handleRequest`: require a `CSeq` header and a parseable
URL, derive the path, then dispatch on the method. -/
def handleRequest (p : Prog) (cid : Nat) (req : Request) : Prog × Outcome :=
  match req.headers.lookup "CSeq" with
  | none => (p, Outcome.genericErr "cseq missing")
  | some cseq =>
    match req.url with
    | none => (p, Outcome.genericErr "unable to parse path")
    | some ur =>
      let path := pathOf ur.path
      match req.method with
      | "OPTIONS" => handleOPTIONS p cseq
      | "DESCRIBE" => handleDESCRIBE p cid req cseq path
      | "ANNOUNCE" => handleANNOUNCE p cid req ur cseq path
      | "SETUP" => handleSETUP p cid req cseq path
      | "PLAY" => handlePLAY p cid cseq path
      | "PAUSE" => handlePAUSE p cid cseq path
      | "RECORD" => handleRECORD p cid cseq path
      | "TEARDOWN" => (p, Outcome.teardown)
      | _ => (p, Outcome.genericErr "unhandled method")

/-- `client.close` with explicit recursion fuel (the cascade of a
publisher's close calls `close` on every other connection bound to the
same path).  A no-op when the connection is no longer in the clients
set; otherwise it removes the connection from the set and closes its
socket; and when the connection's path is nonempty and it is the
registered publisher of that path, it deletes the publisher entry and
closes every other connection on that path. -/
def closeFuel : Nat → Prog → Nat → Prog
  | 0, p, _ => p
  | fuel + 1, p, cid =>
    if cid ∈ p.clients then
      let c := p.conns cid
      let p1 : Prog := { p with
        clients := p.clients.filter (fun j => j ≠ cid),
        closedSockets := cid :: p.closedSockets }
      if c.path ≠ "" then
        match p1.publishers c.path with
        | some pubId =>
          if pubId = cid then
            let p2 : Prog := { p1 with
              publishers := fun q => if q = c.path then none else p1.publishers q }
            (p2.clients.filter (fun oc => (p2.conns oc).path = c.path)).foldl
              (fun acc oc => closeFuel fuel acc oc) p2
          else p1
        | none => p1
      else p1
    else p

/-- `client.close`: the fuel `clients.length + 1` always suffices,
since every recursive call happens after at least one removal from the
clients set and the cascaded closes find the publisher entry already
deleted. -/
def close (p : Prog) (cid : Nat) : Prog :=
  closeFuel (p.clients.length + 1) p cid

/-- An observable I/O / state action of the run loop, in the order the
loop performs them. -/
inductive Event where
  | wroteResponse (r : Response)
  | setState (s : String)
deriving DecidableEq, Repr

/-- How one iteration of the run loop leaves the connection. -/
inductive RunExit where
  | keepsRunning
  | exitsAndCloses
  | entersRelay
  | panicked
deriving DecidableEq, Repr

/-- One iteration of `client.run` after a request has been read: call
`handleRequest` and dispatch on its error result.  A normal response
is written and the loop continues; `errTeardown` returns silently;
`errPlay` / `errRecord` write the response, then set the state (to
PLAY / RECORD), then hand the connection to the TCP relay when the
stream protocol is TCP; `errWrongKey` writes a 401 and returns; any
other error writes a 400 (echoing `CSeq` when present) and returns.
Returning runs the deferred `close`. -/
def runStep (p : Prog) (cid : Nat) (req : Request) : Prog × List Event × RunExit :=
  let pr := handleRequest p cid req
  let p1 := pr.1
  match pr.2 with
  | Outcome.ok res => (p1, [Event.wroteResponse res], RunExit.keepsRunning)
  | Outcome.teardown => (close p1 cid, [], RunExit.exitsAndCloses)
  | Outcome.play res =>
    let p2 := updConn p1 cid (fun c => { c with state := "PLAY" })
    (p2, [Event.wroteResponse res, Event.setState "PLAY"],
      if (p2.conns cid).streamProtocol = streamProtocol.tcp then RunExit.entersRelay
      else RunExit.keepsRunning)
  | Outcome.record res =>
    let p2 := updConn p1 cid (fun c => { c with state := "RECORD" })
    (p2, [Event.wroteResponse res, Event.setState "RECORD"],
      if (p2.conns cid).streamProtocol = streamProtocol.tcp then RunExit.entersRelay
      else RunExit.keepsRunning)
  | Outcome.wrongKey =>
    (close p1 cid,
     [Event.wroteResponse
       { statusCode := 401, status := "Unauthorized",
         headers := [("CSeq", ((req.headers.lookup "CSeq").getD ""))] }],
     RunExit.exitsAndCloses)
  | Outcome.genericErr _ =>
    (close p1 cid,
     [Event.wroteResponse
       { statusCode := 400, status := "Bad Request",
         headers := match req.headers.lookup "CSeq" with
           | some cs => [("CSeq", cs)]
           | none => [] }],
     RunExit.exitsAndCloses)
  | Outcome.panicked => (p1, [], RunExit.panicked)

/-- The initial process state: no clients, no publishers, no publish
key configured, the default RTP/RTCP listener ports. -/
def prog0 : Prog :=
  { clients := [], conns := fun _ => {}, publishers := fun _ => none,
    publishKey := "", rtpPort := 8000, rtcpPort := 8001, closedSockets := [] }

/-- An ANNOUNCE on the URL `rtsp://h/`, whose path component `/`
extracts to the empty path. -/
def reqAnnounceRoot : Request :=
  { method := "ANNOUNCE", urlRaw := "rtsp://h/",
    url := some { path := "/", queryOk := true, queryKey := none },
    headers := [("CSeq", "1"), ("Content-Type", "application/sdp")],
    content := "v=0", contentMedias := some 1 }

/-- A publisher UDP SETUP on the same URL. -/
def reqSetupRecordRoot : Request :=
  { method := "SETUP", urlRaw := "rtsp://h/",
    url := some { path := "/", queryOk := true, queryKey := none },
    headers := [("CSeq", "2"),
      ("Transport", "RTP/AVP/UDP;unicast;mode=record;client_port=5000-5001")],
    content := "", contentMedias := none }

/-- RECORD on the same URL. -/
def reqRecordRoot : Request :=
  { method := "RECORD", urlRaw := "rtsp://h/",
    url := some { path := "/", queryOk := true, queryKey := none },
    headers := [("CSeq", "3")], content := "", contentMedias := none }

/-- A reader UDP SETUP on the same URL. -/
def reqSetupReadRoot : Request :=
  { method := "SETUP", urlRaw := "rtsp://h/",
    url := some { path := "/", queryOk := true, queryKey := none },
    headers := [("CSeq", "1"),
      ("Transport", "RTP/AVP;unicast;client_port=6000-6001")],
    content := "", contentMedias := none }

/-- PLAY on the same URL. -/
def reqPlayRoot : Request :=
  { method := "PLAY", urlRaw := "rtsp://h/",
    url := some { path := "/", queryOk := true, queryKey := none },
    headers := [("CSeq", "2")], content := "", contentMedias := none }

/-- A reachable state in which connection 0 publishes on the empty
path (ANNOUNCE on `rtsp://h/` binds path `""`) and connection 1 is a
reader in PLAY on the same empty path. -/
def progRootRecord : Prog :=
  (runStep
    ((runStep
      ((runStep (newClient prog0 0) 0 reqAnnounceRoot).1)
      0 reqSetupRecordRoot).1)
    0 reqRecordRoot).1

/-- `progRootRecord` with a second connection taken through reader
SETUP on the same empty path (state PRE_PLAY). -/
def progRootPrePlay : Prog :=
  (runStep (newClient progRootRecord 1) 1 reqSetupReadRoot).1

/-- `progRootPrePlay` after the reader's PLAY. -/
def progRootPlay : Prog :=
  (runStep progRootPrePlay 1 reqPlayRoot).1

example : (progRootPlay.conns 0).path = "" := by decide
example : (progRootPlay.conns 0).state = "RECORD" := by decide
example : progRootPlay.publishers "" = some 0 := by decide
example : (progRootPlay.conns 1).state = "PLAY" := by decide
example : (progRootPlay.conns 1).path = "" := by decide
example : progRootPlay.clients = [1, 0] := by decide
example : (close progRootPlay 0).publishers "" = some 0 := by decide
example : 1 ∈ (close progRootPlay 0).clients := by decide
example : 0 ∉ (close progRootPlay 0).clients := by decide

lemma tmod_cast_two (a : Nat) : ((a : Int)).tmod 2 = ((a % 2 : Nat) : Int) := rfl

lemma tdiv_cast_two (a : Nat) : ((a : Int)).tdiv 2 = ((a / 2 : Nat) : Int) := rfl

lemma enc_cast_rtp (n : Nat) :
    trackToInterleavedChannel (n : Int) trackFlow.rtp = ((n * 2 : Nat) : Int) := by
  rw [trackToInterleavedChannel, if_pos rfl]
  push_cast
  ring

lemma enc_cast_rtcp (n : Nat) :
    trackToInterleavedChannel (n : Int) trackFlow.rtcp = ((n * 2 + 1 : Nat) : Int) := by
  rw [trackToInterleavedChannel, if_neg (by decide)]
  push_cast
  ring

lemma dec_cast (n : Nat) :
    interleavedChannelToTrack (n : Int) =
      if n % 2 = 0 then (((n / 2 : Nat) : Int), trackFlow.rtp)
      else ((((n - 1) / 2 : Nat) : Int), trackFlow.rtcp) := by
  rw [interleavedChannelToTrack, tmod_cast_two]
  by_cases h : n % 2 = 0
  · rw [if_pos (by rw [h]; rfl), if_pos h, tdiv_cast_two]
  · have h2 : ¬ ((n % 2 : Nat) : Int) = 0 := by exact_mod_cast h
    have h1 : 1 ≤ n := by omega
    rw [if_neg h2, if_neg h,
      show ((n : Int) - 1) = ((n - 1 : Nat) : Int) from by rw [Nat.cast_sub h1, Nat.cast_one],
      tdiv_cast_two]

/-- C9: the channel ↔ (track, flow) maps form a bijection on
non-negative channels and non-negative track indices:
`trackToInterleavedChannel` sends `(i, RTP)` to `2i` and `(i, RTCP)`
to `2i+1`, decoding a channel and re-encoding is the identity, and
encoding a pair and decoding returns the pair. -/
theorem c9_interleaved_channel_bijection :
    (∀ i : Int, 0 ≤ i →
      trackToInterleavedChannel i trackFlow.rtp = 2 * i ∧
      trackToInterleavedChannel i trackFlow.rtcp = 2 * i + 1 ∧
      ∀ f : trackFlow, interleavedChannelToTrack (trackToInterleavedChannel i f) = (i, f)) ∧
    (∀ c : Int, 0 ≤ c →
      trackToInterleavedChannel (interleavedChannelToTrack c).1
        (interleavedChannelToTrack c).2 = c) := by
  constructor
  · intro i hi
    obtain ⟨n, rfl⟩ := Int.eq_ofNat_of_zero_le hi
    refine ⟨by rw [enc_cast_rtp]; push_cast; ring,
            by rw [enc_cast_rtcp]; push_cast; ring, ?_⟩
    intro f
    cases f
    · rw [enc_cast_rtp, dec_cast, if_pos (by omega)]
      simp only [Prod.mk.injEq]
      exact ⟨Nat.cast_inj.mpr (by omega), trivial⟩
    · rw [enc_cast_rtcp, dec_cast, if_neg (by omega)]
      simp only [Prod.mk.injEq]
      exact ⟨Nat.cast_inj.mpr (by omega), trivial⟩
  · intro c hc
    obtain ⟨n, rfl⟩ := Int.eq_ofNat_of_zero_le hc
    rw [dec_cast]
    by_cases h : n % 2 = 0
    · rw [if_pos h, enc_cast_rtp]
      exact Nat.cast_inj.mpr (by omega)
    · rw [if_neg h, enc_cast_rtcp]
      exact Nat.cast_inj.mpr (by omega)

/-- C9 witness: the bijection at track index 3 and channel 7. -/
theorem c9_witness :
    trackToInterleavedChannel 3 trackFlow.rtcp = 7 ∧
    interleavedChannelToTrack 7 = (3, trackFlow.rtcp) ∧
    trackToInterleavedChannel (interleavedChannelToTrack 7).1
      (interleavedChannelToTrack 7).2 = 7 := by
  refine ⟨?_, ?_, c9_interleaved_channel_bijection.2 7 (by decide)⟩
  · have h := (c9_interleaved_channel_bijection.1 3 (by decide)).2.1
    omega
  · have h := (c9_interleaved_channel_bijection.1 3 (by decide)).2.2 trackFlow.rtcp
    have e : trackToInterleavedChannel 3 trackFlow.rtcp = 7 := by decide
    rw [e] at h
    exact h

/-- C4 (amended): for every request URL whose path component begins
with `/` the bound path does equal the spec's extraction (drop one
leading `/`, truncate at the first remaining `/`); and an empty
resulting path is not rejected as malformed — an ANNOUNCE whose URL
path component is `/` succeeds and installs its connection as the
publisher of the empty path. -/
theorem c4_path_extraction :
    (∀ s : String, (∃ r, s.data = '/' :: r) → pathOf s = specPathOf s) ∧
    (∀ (p : Prog) (cid : Nat) (req : Request) (ur : Url) (cs : String) (n : Nat),
      req.method = "ANNOUNCE" → req.url = some ur → ur.path = "/" →
      req.headers.lookup "CSeq" = some cs →
      req.headers.lookup "Content-Type" = some "application/sdp" →
      req.contentMedias = some n → p.publishKey = "" →
      (p.conns cid).state = "STARTING" → p.publishers "" = none →
      (handleRequest p cid req).2 =
        Outcome.ok { statusCode := 200, status := "OK", headers := [("CSeq", cs)] } ∧
      (handleRequest p cid req).1.publishers "" = some cid ∧
      ((handleRequest p cid req).1.conns cid).path = "") := by
  constructor
  · rintro s ⟨r, hr⟩
    rw [pathOf, specPathOf, hr]
    cases r with
    | nil => rfl
    | cons a l => simp [pathChars, specPathChars]
  · intro p cid req ur cs n hm hu hup hcs hct hsdp hkey hst hpub
    simp only [handleRequest, hcs, hu, hm, handleANNOUNCE, announceKeyCheck, hst, hct, hsdp, hkey, hup,
      show pathOf "/" = "" from by decide, hpub, ne_eq, not_true_eq_false, ite_false,
      if_false, not_false_iff, ite_true, if_true]
    refine ⟨trivial, ?_, ?_⟩
    · simp [pubInsert]
    · simp [pubInsert, updConn]

/-- C4 counterexample: on the URL path component `ab` the code binds
`b` (it strips the first character whenever the component is longer
than one character, slash or not) while the spec's extraction yields
`ab`; and the empty path is not rejected — the concrete ANNOUNCE on
`rtsp://h/` is answered 200 and binds the empty path. -/
theorem c4_counterexample :
    pathOf "ab" ≠ specPathOf "ab" ∧
    (handleRequest (newClient prog0 0) 0 reqAnnounceRoot).2 =
      Outcome.ok { statusCode := 200, status := "OK", headers := [("CSeq", "1")] } ∧
    (handleRequest (newClient prog0 0) 0 reqAnnounceRoot).1.publishers "" = some 0 := by
  refine ⟨by decide, by decide, by decide⟩

/-- C4 witness: the amended theorem at the URL path `/cam/track1`
(agreement with the spec's extraction) and at the concrete empty-path
ANNOUNCE. -/
theorem c4_witness :
    pathOf "/cam/track1" = specPathOf "/cam/track1" ∧
    (handleRequest (newClient prog0 0) 0 reqAnnounceRoot).1.publishers "" = some 0 := by
  constructor
  · exact c4_path_extraction.1 "/cam/track1" ⟨"cam/track1".data, rfl⟩
  · exact (c4_path_extraction.2 (newClient prog0 0) 0 reqAnnounceRoot
      { path := "/", queryOk := true, queryKey := none } "1" 1
      rfl rfl rfl rfl rfl rfl rfl (by decide) (by decide)).2.1

/-- An OPTIONS request that carries no CSeq header. -/
def reqOptionsNoCseq : Request :=
  { method := "OPTIONS", urlRaw := "rtsp://h/cam",
    url := some { path := "/cam", queryOk := true, queryKey := none },
    headers := [], content := "", contentMedias := none }

/-- An OPTIONS request with a CSeq header. -/
def reqOptions : Request :=
  { method := "OPTIONS", urlRaw := "rtsp://h/cam",
    url := some { path := "/cam", queryOk := true, queryKey := none },
    headers := [("CSeq", "0")], content := "", contentMedias := none }

/-- C5 (amended): a request lacking a CSeq header is a generic error
for every method — including OPTIONS, since the CSeq check precedes
the method switch — and an OPTIONS request that does carry CSeq (and a
parseable URL) is answered 200 in every connection state with
`Public: DESCRIBE, ANNOUNCE, SETUP, PLAY, PAUSE, RECORD, TEARDOWN`. -/
theorem c5_cseq_and_options :
    ∀ (p : Prog) (cid : Nat) (req : Request),
      (req.headers.lookup "CSeq" = none →
        (handleRequest p cid req).2 = Outcome.genericErr "cseq missing" ∧
        (handleRequest p cid req).1 = p) ∧
      (∀ (cs : String) (ur : Url), req.method = "OPTIONS" →
        req.headers.lookup "CSeq" = some cs → req.url = some ur →
        (handleRequest p cid req).2 = Outcome.ok
          { statusCode := 200, status := "OK",
            headers := [("CSeq", cs),
              ("Public", "DESCRIBE, ANNOUNCE, SETUP, PLAY, PAUSE, RECORD, TEARDOWN")] }) := by
  intro p cid req
  constructor
  · intro h
    simp [handleRequest, h]
  · intro cs ur hm hcs hu
    simp [handleRequest, hcs, hu, hm, handleOPTIONS]

/-- C5 counterexample: the concrete OPTIONS request without CSeq is
answered with the generic 400 and the connection closes — not with
the claimed 200. -/
theorem c5_counterexample :
    (handleRequest (newClient prog0 0) 0 reqOptionsNoCseq).2 =
      Outcome.genericErr "cseq missing" ∧
    (runStep (newClient prog0 0) 0 reqOptionsNoCseq).2.1 =
      [Event.wroteResponse { statusCode := 400, status := "Bad Request", headers := [] }] ∧
    (runStep (newClient prog0 0) 0 reqOptionsNoCseq).2.2 = RunExit.exitsAndCloses := by
  refine ⟨by decide, by decide, by decide⟩

/-- C5 witness: the amended theorem at the two concrete OPTIONS
requests. -/
theorem c5_witness :
    (handleRequest prog0 0 reqOptionsNoCseq).1 = prog0 ∧
    (handleRequest prog0 0 reqOptions).2 = Outcome.ok
      { statusCode := 200, status := "OK",
        headers := [("CSeq", "0"),
          ("Public", "DESCRIBE, ANNOUNCE, SETUP, PLAY, PAUSE, RECORD, TEARDOWN")] } :=
  ⟨((c5_cseq_and_options prog0 0 reqOptionsNoCseq).1 rfl).2,
   (c5_cseq_and_options prog0 0 reqOptions).2 "0"
     { path := "/cam", queryOk := true, queryKey := none } rfl rfl rfl⟩

/-- A TEARDOWN request with a CSeq header. -/
def reqTeardown : Request :=
  { method := "TEARDOWN", urlRaw := "rtsp://h/cam",
    url := some { path := "/cam", queryOk := true, queryKey := none },
    headers := [("CSeq", "4")], content := "", contentMedias := none }

/-- A TEARDOWN request without a CSeq header. -/
def reqTeardownNoCseq : Request :=
  { method := "TEARDOWN", urlRaw := "rtsp://h/cam",
    url := some { path := "/cam", queryOk := true, queryKey := none },
    headers := [], content := "", contentMedias := none }

/-- A TEARDOWN request whose URL does not parse. -/
def reqTeardownBadUrl : Request :=
  { method := "TEARDOWN", urlRaw := "://bad", url := none,
    headers := [("CSeq", "9")], content := "", contentMedias := none }

/-- C6 (amended): a TEARDOWN whose CSeq header is present and whose
URL parses closes the connection silently — no response event — in
every connection state; but the CSeq and URL checks run first, so a
TEARDOWN failing them gets the generic 400 response. -/
theorem c6_teardown_silent_close :
    ∀ (p : Prog) (cid : Nat) (req : Request) (cs : String) (ur : Url),
      req.method = "TEARDOWN" → req.headers.lookup "CSeq" = some cs →
      req.url = some ur →
      (handleRequest p cid req).2 = Outcome.teardown ∧
      (runStep p cid req).2.1 = [] ∧
      (runStep p cid req).2.2 = RunExit.exitsAndCloses ∧
      (runStep p cid req).1 = close p cid := by
  intro p cid req cs ur hm hcs hu
  have h2 : (handleRequest p cid req).2 = Outcome.teardown := by
    simp [handleRequest, hcs, hu, hm]
  have h1 : (handleRequest p cid req).1 = p := by
    simp [handleRequest, hcs, hu, hm]
  refine ⟨h2, ?_⟩
  simp [runStep, h2, h1]

/-- C6 counterexample: a TEARDOWN without CSeq, and one with an
unparseable URL, are both answered with a written 400 response — not
the claimed silent close. -/
theorem c6_counterexample :
    (runStep (newClient prog0 0) 0 reqTeardownNoCseq).2.1 =
      [Event.wroteResponse { statusCode := 400, status := "Bad Request", headers := [] }] ∧
    (runStep (newClient prog0 0) 0 reqTeardownBadUrl).2.1 =
      [Event.wroteResponse
        { statusCode := 400, status := "Bad Request", headers := [("CSeq", "9")] }] := by
  refine ⟨by decide, by decide⟩

/-- C6 witness: the amended theorem at the concrete TEARDOWN in state
STARTING. -/
theorem c6_witness :
    (runStep (newClient prog0 0) 0 reqTeardown).2.1 = [] ∧
    (runStep (newClient prog0 0) 0 reqTeardown).2.2 = RunExit.exitsAndCloses :=
  ⟨(c6_teardown_silent_close (newClient prog0 0) 0 reqTeardown "4"
      { path := "/cam", queryOk := true, queryKey := none } rfl rfl rfl).2.1,
   (c6_teardown_silent_close (newClient prog0 0) 0 reqTeardown "4"
      { path := "/cam", queryOk := true, queryKey := none } rfl rfl rfl).2.2.1⟩

lemma announceKeyCheck_cases (p : Prog) (ur : Url) :
    announceKeyCheck p ur = none ∨
    (∃ m, announceKeyCheck p ur = some (Outcome.genericErr m)) ∨
    announceKeyCheck p ur = some Outcome.wrongKey := by
  by_cases h1 : p.publishKey = ""
  · left
    simp [announceKeyCheck, h1]
  · by_cases h2 : ur.queryOk = true
    · cases hk : ur.queryKey with
      | none =>
        exact Or.inr (Or.inl ⟨"key missing", by simp [announceKeyCheck, h1, h2, hk]⟩)
      | some k =>
        by_cases hke : k = p.publishKey
        · left
          simp [announceKeyCheck, h1, h2, hk, hke]
        · right
          right
          simp [announceKeyCheck, h1, h2, hk, hke]
    · exact Or.inr (Or.inl ⟨"unable to parse query",
        by simp [announceKeyCheck, h1, h2]⟩)

lemma handleANNOUNCE_occupied (p : Prog) (cid : Nat) (req : Request) (ur : Url)
    (cseq path : String) (q : Nat) (hpub : p.publishers path = some q) :
    (handleANNOUNCE p cid req ur cseq path).1 = p ∧
    ((∃ m, (handleANNOUNCE p cid req ur cseq path).2 = Outcome.genericErr m) ∨
      (handleANNOUNCE p cid req ur cseq path).2 = Outcome.wrongKey) := by
  simp only [handleANNOUNCE]
  by_cases h1 : (p.conns cid).state ≠ "STARTING"
  · rw [if_pos h1]
    exact ⟨rfl, Or.inl ⟨_, rfl⟩⟩
  · rw [if_neg h1]
    cases hct : List.lookup "Content-Type" req.headers with
    | none => exact ⟨rfl, Or.inl ⟨_, rfl⟩⟩
    | some ct =>
      simp only []
      by_cases h2 : ct ≠ "application/sdp"
      · rw [if_pos h2]
        exact ⟨rfl, Or.inl ⟨_, rfl⟩⟩
      · rw [if_neg h2]
        cases hsdp : req.contentMedias with
        | none => exact ⟨rfl, Or.inl ⟨_, rfl⟩⟩
        | some medias =>
          simp only []
          rcases announceKeyCheck_cases p ur with hk | ⟨m, hk⟩ | hk
          · rw [hk, hpub]
            exact ⟨rfl, Or.inl ⟨_, rfl⟩⟩
          · rw [hk]
            exact ⟨rfl, Or.inl ⟨m, rfl⟩⟩
          · rw [hk]
            exact ⟨rfl, Or.inr rfl⟩

lemma runStep_of_genericErr (p : Prog) (cid : Nat) (req : Request) (m : String)
    (h : (handleRequest p cid req).2 = Outcome.genericErr m) :
    runStep p cid req = (close (handleRequest p cid req).1 cid,
      [Event.wroteResponse
        { statusCode := 400, status := "Bad Request",
          headers := match req.headers.lookup "CSeq" with
            | some cs => [("CSeq", cs)]
            | none => [] }],
      RunExit.exitsAndCloses) := by
  simp [runStep, h]

lemma runStep_of_wrongKey (p : Prog) (cid : Nat) (req : Request)
    (h : (handleRequest p cid req).2 = Outcome.wrongKey) :
    runStep p cid req = (close (handleRequest p cid req).1 cid,
      [Event.wroteResponse
        { statusCode := 401, status := "Unauthorized",
          headers := [("CSeq", ((req.headers.lookup "CSeq").getD ""))] }],
      RunExit.exitsAndCloses) := by
  simp [runStep, h]

lemma close_publishers_of_path_empty (p : Prog) (cid : Nat)
    (h : (p.conns cid).path = "") :
    (close p cid).publishers = p.publishers := by
  rw [close, closeFuel]
  by_cases h1 : cid ∈ p.clients
  · rw [if_pos h1]
    simp only []
    rw [if_neg (show ¬((p.conns cid).path ≠ "") from by simp [h])]
  · rw [if_neg h1]

/-- C1 (amended): a publishers entry holds at most one connection (it
is a map), and an ANNOUNCE by a connection with no bound path on a
path that already has a publisher is refused — with the generic 400,
or with 401 when the configured publish-key check fails first — and
closes, leaving every publishers entry unchanged and the original
publisher installed. -/
theorem c1_announce_on_taken_path :
    ∀ (p : Prog) (cid : Nat) (req : Request) (ur : Url) (q : Nat),
      req.method = "ANNOUNCE" → req.url = some ur →
      p.publishers (pathOf ur.path) = some q →
      (p.conns cid).path = "" →
      (∀ (pa : String) (a b : Nat), p.publishers pa = some a →
        p.publishers pa = some b → a = b) ∧
      (∃ res, (runStep p cid req).2.1 = [Event.wroteResponse res] ∧
        (res.statusCode = 400 ∨ res.statusCode = 401)) ∧
      (runStep p cid req).2.2 = RunExit.exitsAndCloses ∧
      (∀ pa, (runStep p cid req).1.publishers pa = p.publishers pa) ∧
      (runStep p cid req).1.publishers (pathOf ur.path) = some q := by
  intro p cid req ur q hm hu hpub hpath
  have hh : (handleRequest p cid req).1 = p ∧
      ((∃ m, (handleRequest p cid req).2 = Outcome.genericErr m) ∨
        (handleRequest p cid req).2 = Outcome.wrongKey) := by
    cases hcs : req.headers.lookup "CSeq" with
    | none =>
      exact ⟨by simp [handleRequest, hcs],
        Or.inl ⟨"cseq missing", by simp [handleRequest, hcs]⟩⟩
    | some cs =>
      have he : handleRequest p cid req = handleANNOUNCE p cid req ur cs (pathOf ur.path) := by
        simp [handleRequest, hcs, hu, hm]
      rw [he]
      exact handleANNOUNCE_occupied p cid req ur cs (pathOf ur.path) q hpub
  have huniq : ∀ (pa : String) (a b : Nat), p.publishers pa = some a →
      p.publishers pa = some b → a = b := by
    intro pa a b ha hb
    rw [ha] at hb
    exact Option.some.inj hb
  have hclose : ∀ pa, (close p cid).publishers pa = p.publishers pa := by
    intro pa
    rw [close_publishers_of_path_empty p cid hpath]
  rcases hh with ⟨h1, herr⟩
  rcases herr with ⟨m, hm2⟩ | hm2
  · rw [runStep_of_genericErr p cid req m hm2]
    refine ⟨huniq, ⟨_, rfl, Or.inl rfl⟩, rfl, ?_, ?_⟩
    · intro pa
      rw [h1]
      exact hclose pa
    · rw [h1]
      exact (hclose _).trans hpub
  · rw [runStep_of_wrongKey p cid req hm2]
    refine ⟨huniq, ⟨_, rfl, Or.inr rfl⟩, rfl, ?_, ?_⟩
    · intro pa
      rw [h1]
      exact hclose pa
    · rw [h1]
      exact (hclose _).trans hpub

/-- A state in which connection 1 publishes on `cam` (with a publish
key `secret` configured) and connection 0 is a fresh STARTING
connection. -/
def progOccupied : Prog :=
  { clients := [0, 1],
    conns := fun j => if j = 1 then
        { state := "RECORD", path := "cam", streamSdpText := "v=0",
          streamSdpParsed := some 1, streamProtocol := streamProtocol.udp,
          streamTracks := [{ rtpPort := 5000, rtcpPort := 5001 }] }
      else {},
    publishers := fun q => if q = "cam" then some 1 else none,
    publishKey := "secret", rtpPort := 8000, rtcpPort := 8001,
    closedSockets := [] }

/-- An ANNOUNCE on `cam` carrying the wrong publish key. -/
def reqAnnounceWrongKey : Request :=
  { method := "ANNOUNCE", urlRaw := "rtsp://h/cam?key=wrong",
    url := some { path := "/cam", queryOk := true, queryKey := some "wrong" },
    headers := [("CSeq", "5"), ("Content-Type", "application/sdp")],
    content := "v=0", contentMedias := some 1 }

/-- An ANNOUNCE on `cam` carrying the right publish key. -/
def reqAnnounceRightKey : Request :=
  { method := "ANNOUNCE", urlRaw := "rtsp://h/cam?key=secret",
    url := some { path := "/cam", queryOk := true, queryKey := some "secret" },
    headers := [("CSeq", "5"), ("Content-Type", "application/sdp")],
    content := "v=0", contentMedias := some 1 }

/-- C1 counterexample: an ANNOUNCE on the already-taken path `cam`
with a wrong publish key is answered 401, not the claimed generic 400;
and when the announcing connection is itself the registered publisher
(client 1 re-ANNOUNCEs), the 400-and-close path does delete its
publishers entry, so the publishers map does not always stay
unchanged. -/
theorem c1_counterexample :
    (runStep progOccupied 0 reqAnnounceWrongKey).2.1 =
      [Event.wroteResponse
        { statusCode := 401, status := "Unauthorized", headers := [("CSeq", "5")] }] ∧
    (runStep progOccupied 1 reqAnnounceWrongKey).1.publishers "cam" = none := by
  refine ⟨by decide, by decide⟩

/-- C1 witness: the amended theorem at the concrete occupied-path
ANNOUNCE with the right key (the 400 branch). -/
theorem c1_witness :
    (runStep progOccupied 0 reqAnnounceRightKey).1.publishers "cam" = some 1 ∧
    (runStep progOccupied 0 reqAnnounceRightKey).2.2 = RunExit.exitsAndCloses := by
  have h := c1_announce_on_taken_path progOccupied 0 reqAnnounceRightKey
    { path := "/cam", queryOk := true, queryKey := some "secret" } 1
    rfl rfl (by decide) (by decide)
  have e : pathOf "/cam" = "cam" := by decide
  rw [e] at h
  exact ⟨h.2.2.2.2, h.2.2.1⟩

lemma runStep_of_play (p : Prog) (cid : Nat) (req : Request) (res : Response)
    (h : (handleRequest p cid req).2 = Outcome.play res) :
    (runStep p cid req).2.1 = [Event.wroteResponse res, Event.setState "PLAY"] ∧
    (runStep p cid req).1 =
      updConn (handleRequest p cid req).1 cid (fun c => { c with state := "PLAY" }) := by
  simp [runStep, h]

lemma handlePLAY_spec (p : Prog) (cid : Nat) (cs pa : String)
    (hwf : ∀ j, p.publishers ((p.conns cid).path) = some j →
      (p.conns j).streamSdpParsed ≠ none) :
    (handlePLAY p cid cs pa).1 = p ∧
    ((handlePLAY p cid cs pa).2 = Outcome.play
        { statusCode := 200, status := "OK",
          headers := [("CSeq", cs), ("Session", "12345678")] } ↔
      ((p.conns cid).state = "PRE_PLAY" ∧ pa = (p.conns cid).path ∧
        ∃ pubId n, p.publishers ((p.conns cid).path) = some pubId ∧
          (p.conns pubId).streamSdpParsed = some n ∧
          (p.conns cid).streamTracks.length = n)) ∧
    (¬ ((p.conns cid).state = "PRE_PLAY" ∧ pa = (p.conns cid).path ∧
        ∃ pubId n, p.publishers ((p.conns cid).path) = some pubId ∧
          (p.conns pubId).streamSdpParsed = some n ∧
          (p.conns cid).streamTracks.length = n) →
      ∃ m, (handlePLAY p cid cs pa).2 = Outcome.genericErr m) := by
  simp only [handlePLAY]
  by_cases h1 : (p.conns cid).state ≠ "PRE_PLAY"
  · rw [if_pos h1]
    refine ⟨rfl, ?_, fun _ => ⟨_, rfl⟩⟩
    constructor
    · intro h
      exact absurd h (by simp)
    · intro hc
      exact absurd hc.1 h1
  · rw [if_neg h1]
    have hs : (p.conns cid).state = "PRE_PLAY" := not_not.mp h1
    by_cases h2 : pa ≠ (p.conns cid).path
    · rw [if_pos h2]
      refine ⟨rfl, ?_, fun _ => ⟨_, rfl⟩⟩
      constructor
      · intro h
        exact absurd h (by simp)
      · intro hc
        exact absurd hc.2.1 h2
    · rw [if_neg h2]
      have hpa : pa = (p.conns cid).path := not_not.mp h2
      cases hpb : p.publishers ((p.conns cid).path) with
      | none =>
        refine ⟨by trivial, ?_, fun _ => ⟨_, by trivial⟩⟩
        constructor
        · intro h
          exact absurd h (by simp)
        · rintro ⟨-, -, pubId, n, hp, -⟩
          cases hp
      | some pubId =>
        simp only []
        cases hsdp : (p.conns pubId).streamSdpParsed with
        | none => exact absurd hsdp (hwf pubId hpb)
        | some n =>
          simp only []
          by_cases h3 : (p.conns cid).streamTracks.length ≠ n
          · rw [if_pos h3]
            refine ⟨by trivial, ?_, fun _ => ⟨_, by trivial⟩⟩
            constructor
            · intro h
              exact absurd h (by simp)
            · rintro ⟨-, -, pubId2, n2, hp2, hs2, hl⟩
              obtain rfl := Option.some.inj hp2
              rw [hsdp] at hs2
              obtain rfl := Option.some.inj hs2
              exact (h3 hl).elim
          · rw [if_neg h3]
            have hlen := not_not.mp h3
            refine ⟨by trivial, ⟨fun _ => ⟨hs, hpa, pubId, n, rfl, hsdp, hlen⟩,
              fun _ => by trivial⟩, ?_⟩
            intro hnc
            exact absurd ⟨hs, hpa, pubId, n, rfl, hsdp, hlen⟩ hnc

/-- C3: a PLAY is answered 200 (via the `errPlay` sentinel) only when
the connection is in PRE_PLAY, the request path equals the bound path,
and the number of set-up tracks equals the publisher's SDP media
count; when any of those conditions fails the request is a generic
error; and on success the run loop writes the 200 response strictly
before it sets the connection state to PLAY.  (The well-formedness
hypothesis — registered publishers have a parsed SDP — holds in every
reachable state, since ANNOUNCE stores the SDP when it installs a
publisher.) -/
theorem c3_play_contract :
    ∀ (p : Prog) (cid : Nat) (req : Request) (ur : Url),
      req.method = "PLAY" → req.url = some ur →
      (∀ j, p.publishers ((p.conns cid).path) = some j →
        (p.conns j).streamSdpParsed ≠ none) →
      (∀ res, (handleRequest p cid req).2 = Outcome.play res →
        res.statusCode = 200 ∧
        (p.conns cid).state = "PRE_PLAY" ∧
        pathOf ur.path = (p.conns cid).path ∧
        (∃ pubId n, p.publishers ((p.conns cid).path) = some pubId ∧
          (p.conns pubId).streamSdpParsed = some n ∧
          (p.conns cid).streamTracks.length = n)) ∧
      ((¬ ((p.conns cid).state = "PRE_PLAY" ∧ pathOf ur.path = (p.conns cid).path ∧
          ∃ pubId n, p.publishers ((p.conns cid).path) = some pubId ∧
            (p.conns pubId).streamSdpParsed = some n ∧
            (p.conns cid).streamTracks.length = n)) →
        ∃ m, (handleRequest p cid req).2 = Outcome.genericErr m) ∧
      (∀ res, (handleRequest p cid req).2 = Outcome.play res →
        (runStep p cid req).2.1 = [Event.wroteResponse res, Event.setState "PLAY"] ∧
        ((runStep p cid req).1.conns cid).state = "PLAY") := by
  intro p cid req ur hm hu hwf
  cases hcs : req.headers.lookup "CSeq" with
  | none =>
    refine ⟨?_, fun _ => ⟨"cseq missing", by simp [handleRequest, hcs]⟩, ?_⟩
    · intro res h
      rw [show (handleRequest p cid req).2 = Outcome.genericErr "cseq missing" from
        by simp [handleRequest, hcs]] at h
      cases h
    · intro res h
      rw [show (handleRequest p cid req).2 = Outcome.genericErr "cseq missing" from
        by simp [handleRequest, hcs]] at h
      cases h
  | some cs =>
    have he : handleRequest p cid req = handlePLAY p cid cs (pathOf ur.path) := by
      simp [handleRequest, hcs, hu, hm]
    have spec := handlePLAY_spec p cid cs (pathOf ur.path) hwf
    refine ⟨?_, ?_, ?_⟩
    · intro res h
      rw [he] at h
      by_cases hcond : (p.conns cid).state = "PRE_PLAY" ∧
          pathOf ur.path = (p.conns cid).path ∧
          ∃ pubId n, p.publishers ((p.conns cid).path) = some pubId ∧
            (p.conns pubId).streamSdpParsed = some n ∧
            (p.conns cid).streamTracks.length = n
      · have h200 := spec.2.1.mpr hcond
        rw [h] at h200
        have hres : res =
            { statusCode := 200, status := "OK",
              headers := [("CSeq", cs), ("Session", "12345678")] } :=
          Outcome.play.inj h200
        exact ⟨by rw [hres], hcond.1, hcond.2.1, hcond.2.2⟩
      · obtain ⟨m, hge⟩ := spec.2.2 hcond
        rw [h] at hge
        cases hge
    · intro hnc
      rw [he]
      exact spec.2.2 hnc
    · intro res h
      obtain ⟨hev, hst⟩ := runStep_of_play p cid req res h
      refine ⟨hev, ?_⟩
      rw [hst]
      simp [updConn]

/-- C3 witness: the PLAY contract at the concrete reachable PRE_PLAY
reader state (conditions hold; 200 sentinel; write precedes the state
change). -/
theorem c3_witness :
    (handleRequest progRootPrePlay 1 reqPlayRoot).2 = Outcome.play
      { statusCode := 200, status := "OK",
        headers := [("CSeq", "2"), ("Session", "12345678")] } ∧
    (runStep progRootPrePlay 1 reqPlayRoot).2.1 =
      [Event.wroteResponse
        { statusCode := 200, status := "OK",
          headers := [("CSeq", "2"), ("Session", "12345678")] },
       Event.setState "PLAY"] ∧
    ((runStep progRootPrePlay 1 reqPlayRoot).1.conns 1).state = "PLAY" := by
  have hwf : ∀ j, progRootPrePlay.publishers ((progRootPrePlay.conns 1).path) = some j →
      (progRootPrePlay.conns j).streamSdpParsed ≠ none := by
    intro j h
    have e : progRootPrePlay.publishers ((progRootPrePlay.conns 1).path) = some 0 := by decide
    rw [e] at h
    cases h
    decide
  have hp : (handleRequest progRootPrePlay 1 reqPlayRoot).2 = Outcome.play
      { statusCode := 200, status := "OK",
        headers := [("CSeq", "2"), ("Session", "12345678")] } := by decide
  have h3 := (c3_play_contract progRootPrePlay 1 reqPlayRoot
    { path := "/", queryOk := true, queryKey := none } rfl rfl hwf).2.2 _ hp
  exact ⟨hp, h3.1, h3.2⟩

lemma handleSETUP_record_dispatch (p : Prog) (cid : Nat) (req : Request)
    (cs pa ts : String)
    (hts : req.headers.lookup "Transport" = some ts)
    (hst : (p.conns cid).state = "ANNOUNCE" ∨ (p.conns cid).state = "PRE_RECORD")
    (huni : "unicast" ∈ newTransportHeader ts)
    (hmode : "mode=record" ∈ newTransportHeader ts)
    (hpath : pa = (p.conns cid).path) :
    handleSETUP p cid req cs pa =
      if "RTP/AVP/UDP" ∈ newTransportHeader ts then
        setupRecordUdp p cid (newTransportHeader ts) ts cs
      else if "RTP/AVP/TCP" ∈ newTransportHeader ts then
        setupRecordTcp p cid (newTransportHeader ts) cs
      else (p, Outcome.genericErr "transport header does not contain a valid protocol") := by
  simp only [handleSETUP, hts]
  rw [if_neg (not_not_intro huni)]
  have hreader : ¬ ((p.conns cid).state = "STARTING" ∨ (p.conns cid).state = "PRE_PLAY") := by
    rcases hst with h | h <;> rw [h] <;> decide
  rw [if_neg hreader, if_pos hst, if_neg (not_not_intro hmode), if_neg (not_not_intro hpath)]

lemma setupRecordUdp_success (p : Prog) (cid : Nat) (th : List String)
    (ts cs : String) (n : Nat)
    (hp1 : (getClientPorts th).1 ≠ 0) (hp2 : (getClientPorts th).2 ≠ 0)
    (hproto : (p.conns cid).streamTracks = [] ∨
      (p.conns cid).streamProtocol = streamProtocol.udp)
    (hsdp : (p.conns cid).streamSdpParsed = some n)
    (hlen : (p.conns cid).streamTracks.length < n) :
    setupRecordUdp p cid th ts cs =
      (updConn p cid (fun c => { c with
        streamProtocol := streamProtocol.udp,
        streamTracks := c.streamTracks ++
          [{ rtpPort := (getClientPorts th).1, rtcpPort := (getClientPorts th).2 }],
        state := "PRE_RECORD" }),
       Outcome.ok
        { statusCode := 200, status := "OK",
          headers := [("CSeq", cs),
            ("Transport", "RTP/AVP;unicast;client_port=" ++ toString (getClientPorts th).1
              ++ "-" ++ toString (getClientPorts th).2 ++ ";server_port="
              ++ toString p.rtpPort ++ "-" ++ toString p.rtcpPort ++ ";ssrc=1234ABCD"),
            ("Session", "12345678")] }) := by
  simp only [setupRecordUdp]
  rw [if_neg (not_or.mpr ⟨hp1, hp2⟩)]
  rw [if_neg (show ¬ ((p.conns cid).streamTracks.length > 0 ∧
      (p.conns cid).streamProtocol ≠ streamProtocol.udp) from by
    rcases hproto with h | h <;> simp [h])]
  rw [hsdp]
  simp only []
  rw [if_neg (by omega)]

lemma setupRecordTcp_spec (p : Prog) (cid : Nat) (th : List String)
    (cs : String) (n : Nat) (v : String)
    (hproto : (p.conns cid).streamTracks = [] ∨
      (p.conns cid).streamProtocol = streamProtocol.tcp)
    (hsdp : (p.conns cid).streamSdpParsed = some n)
    (hlen : (p.conns cid).streamTracks.length < n)
    (hint : getKeyValue th "interleaved" = v) (hv : v ≠ "") :
    (v ≠ toString (0 + (p.conns cid).streamTracks.length * 2) ++ "-"
        ++ toString (1 + (p.conns cid).streamTracks.length * 2) →
      setupRecordTcp p cid th cs = (p, Outcome.genericErr "wrong interleaved value")) ∧
    (v = toString (0 + (p.conns cid).streamTracks.length * 2) ++ "-"
        ++ toString (1 + (p.conns cid).streamTracks.length * 2) →
      setupRecordTcp p cid th cs =
        (updConn p cid (fun c => { c with
          streamProtocol := streamProtocol.tcp,
          streamTracks := c.streamTracks ++ [{ rtpPort := 0, rtcpPort := 0 }],
          state := "PRE_RECORD" }),
         Outcome.ok
          { statusCode := 200, status := "OK",
            headers := [("CSeq", cs),
              ("Transport", "RTP/AVP/TCP;unicast;interleaved=" ++ v),
              ("Session", "12345678")] })) := by
  have hbase : setupRecordTcp p cid th cs =
      (if v ≠ toString (0 + (p.conns cid).streamTracks.length * 2) ++ "-"
          ++ toString (1 + (p.conns cid).streamTracks.length * 2) then
        (p, Outcome.genericErr "wrong interleaved value")
      else
        (updConn p cid (fun c => { c with
          streamProtocol := streamProtocol.tcp,
          streamTracks := c.streamTracks ++ [{ rtpPort := 0, rtcpPort := 0 }],
          state := "PRE_RECORD" }),
         Outcome.ok
          { statusCode := 200, status := "OK",
            headers := [("CSeq", cs),
              ("Transport", "RTP/AVP/TCP;unicast;interleaved=" ++ v),
              ("Session", "12345678")] })) := by
    simp only [setupRecordTcp]
    rw [if_neg (show ¬ ((p.conns cid).streamTracks.length > 0 ∧
        (p.conns cid).streamProtocol ≠ streamProtocol.tcp) from by
      rcases hproto with h | h <;> simp [h])]
    rw [hsdp]
    simp only []
    rw [if_neg (by omega), hint, if_neg hv]
  constructor
  · intro hne
    rw [hbase, if_pos hne]
  · intro heq
    rw [hbase, if_neg (not_not_intro heq)]

/-- C7 (amended): the publisher SETUP branch selects UDP by the
transport token `RTP/AVP/UDP`, not by the reader branch's `RTP/AVP`: a
publisher SETUP whose Transport contains `RTP/AVP/UDP` with valid
nonzero client ports succeeds, appends a UDP track and moves to
PRE_RECORD, while a publisher SETUP whose Transport carries neither
`RTP/AVP/UDP` nor `RTP/AVP/TCP` — in particular one carrying only
`RTP/AVP` — is rejected with the generic error. -/
theorem c7_publisher_setup_udp_token :
    ∀ (p : Prog) (cid : Nat) (req : Request) (ur : Url) (cs ts : String),
      req.method = "SETUP" → req.url = some ur →
      req.headers.lookup "CSeq" = some cs →
      req.headers.lookup "Transport" = some ts →
      ((p.conns cid).state = "ANNOUNCE" ∨ (p.conns cid).state = "PRE_RECORD") →
      "unicast" ∈ newTransportHeader ts →
      "mode=record" ∈ newTransportHeader ts →
      pathOf ur.path = (p.conns cid).path →
      ("RTP/AVP/UDP" ∈ newTransportHeader ts →
        ∀ n, (p.conns cid).streamSdpParsed = some n →
        (p.conns cid).streamTracks.length < n →
        ((p.conns cid).streamTracks = [] ∨
          (p.conns cid).streamProtocol = streamProtocol.udp) →
        (getClientPorts (newTransportHeader ts)).1 ≠ 0 →
        (getClientPorts (newTransportHeader ts)).2 ≠ 0 →
        (∃ res, (handleRequest p cid req).2 = Outcome.ok res ∧ res.statusCode = 200) ∧
        ((handleRequest p cid req).1.conns cid).streamTracks =
          (p.conns cid).streamTracks ++
            [{ rtpPort := (getClientPorts (newTransportHeader ts)).1,
               rtcpPort := (getClientPorts (newTransportHeader ts)).2 }] ∧
        ((handleRequest p cid req).1.conns cid).streamProtocol = streamProtocol.udp ∧
        ((handleRequest p cid req).1.conns cid).state = "PRE_RECORD") ∧
      ("RTP/AVP/UDP" ∉ newTransportHeader ts → "RTP/AVP/TCP" ∉ newTransportHeader ts →
        (handleRequest p cid req).2 =
          Outcome.genericErr "transport header does not contain a valid protocol" ∧
        (handleRequest p cid req).1 = p) := by
  intro p cid req ur cs ts hm hu hcs hts hst huni hmode hpath
  have he : handleRequest p cid req = handleSETUP p cid req cs (pathOf ur.path) := by
    simp [handleRequest, hcs, hu, hm]
  rw [he, handleSETUP_record_dispatch p cid req cs (pathOf ur.path) ts hts hst huni hmode hpath]
  constructor
  · intro hudp n hsdp hlen hproto hp1 hp2
    rw [if_pos hudp,
      setupRecordUdp_success p cid (newTransportHeader ts) ts cs n hp1 hp2 hproto hsdp hlen]
    refine ⟨⟨_, rfl, rfl⟩, ?_, ?_, ?_⟩ <;> simp [updConn]
  · intro hnudp hntcp
    rw [if_neg hnudp, if_neg hntcp]
    exact ⟨rfl, rfl⟩

/-- A state with connection 0 a publisher in state ANNOUNCE on `cam`
with a one-media SDP. -/
def progAnnCam : Prog :=
  { clients := [0],
    conns := fun j => if j = 0 then
        { state := "ANNOUNCE", path := "cam", streamSdpText := "v=0",
          streamSdpParsed := some 1 }
      else {},
    publishers := fun q => if q = "cam" then some 0 else none,
    publishKey := "", rtpPort := 8000, rtcpPort := 8001, closedSockets := [] }

/-- A publisher SETUP whose Transport carries the reader token
`RTP/AVP` (plus `unicast`, `mode=record` and valid ports). -/
def reqSetupRecordAvp : Request :=
  { method := "SETUP", urlRaw := "rtsp://h/cam",
    url := some { path := "/cam", queryOk := true, queryKey := none },
    headers := [("CSeq", "2"),
      ("Transport", "RTP/AVP;unicast;mode=record;client_port=5000-5001")],
    content := "", contentMedias := none }

/-- The same publisher SETUP with the `RTP/AVP/UDP` token. -/
def reqSetupRecordAvpUdp : Request :=
  { method := "SETUP", urlRaw := "rtsp://h/cam",
    url := some { path := "/cam", queryOk := true, queryKey := none },
    headers := [("CSeq", "2"),
      ("Transport", "RTP/AVP/UDP;unicast;mode=record;client_port=5000-5001")],
    content := "", contentMedias := none }

/-- C7 counterexample: the publisher SETUP with Transport
`RTP/AVP;unicast;mode=record;client_port=5000-5001` — the claim says
it succeeds and appends a UDP track — is answered with the generic
protocol error and appends nothing. -/
theorem c7_counterexample :
    (handleRequest progAnnCam 0 reqSetupRecordAvp).2 =
      Outcome.genericErr "transport header does not contain a valid protocol" ∧
    ((handleRequest progAnnCam 0 reqSetupRecordAvp).1.conns 0).streamTracks = [] ∧
    ((handleRequest progAnnCam 0 reqSetupRecordAvp).1.conns 0).state = "ANNOUNCE" := by
  refine ⟨by decide, by decide, by decide⟩

/-- C7 witness: the amended theorem at the concrete ANNOUNCE-state
publisher, on both the `RTP/AVP/UDP` success branch and the
`RTP/AVP`-only rejection branch. -/
theorem c7_witness :
    (∃ res, (handleRequest progAnnCam 0 reqSetupRecordAvpUdp).2 = Outcome.ok res ∧
      res.statusCode = 200) ∧
    ((handleRequest progAnnCam 0 reqSetupRecordAvpUdp).1.conns 0).state = "PRE_RECORD" ∧
    (handleRequest progAnnCam 0 reqSetupRecordAvp).1 = progAnnCam := by
  have hA := c7_publisher_setup_udp_token progAnnCam 0 reqSetupRecordAvpUdp
    { path := "/cam", queryOk := true, queryKey := none } "2"
    "RTP/AVP/UDP;unicast;mode=record;client_port=5000-5001"
    rfl rfl rfl rfl (Or.inl (by decide)) (by decide) (by decide) (by decide)
  have hB := c7_publisher_setup_udp_token progAnnCam 0 reqSetupRecordAvp
    { path := "/cam", queryOk := true, queryKey := none } "2"
    "RTP/AVP;unicast;mode=record;client_port=5000-5001"
    rfl rfl rfl rfl (Or.inl (by decide)) (by decide) (by decide) (by decide)
  have h1 := hA.1 (by decide) 1 (by decide) (by decide) (Or.inl (by decide))
    (by decide) (by decide)
  exact ⟨h1.1, h1.2.2.2, (hB.2 (by decide) (by decide)).2⟩

/-- C8: on a publisher TCP SETUP the proposed `interleaved=` value
must equal `2k-(2k+1)` for the new track index `k` (the current track
count): any other proposal is the generic protocol error and leaves
the state untouched, while the expected proposal succeeds, appends the
TCP track and moves to PRE_RECORD. -/
theorem c8_publisher_tcp_interleaved :
    ∀ (p : Prog) (cid : Nat) (req : Request) (ur : Url) (cs ts v : String) (n : Nat),
      req.method = "SETUP" → req.url = some ur →
      req.headers.lookup "CSeq" = some cs →
      req.headers.lookup "Transport" = some ts →
      ((p.conns cid).state = "ANNOUNCE" ∨ (p.conns cid).state = "PRE_RECORD") →
      "unicast" ∈ newTransportHeader ts →
      "mode=record" ∈ newTransportHeader ts →
      pathOf ur.path = (p.conns cid).path →
      "RTP/AVP/UDP" ∉ newTransportHeader ts →
      "RTP/AVP/TCP" ∈ newTransportHeader ts →
      ((p.conns cid).streamTracks = [] ∨
        (p.conns cid).streamProtocol = streamProtocol.tcp) →
      (p.conns cid).streamSdpParsed = some n →
      (p.conns cid).streamTracks.length < n →
      getKeyValue (newTransportHeader ts) "interleaved" = v →
      v ≠ "" →
      (v ≠ toString (2 * (p.conns cid).streamTracks.length) ++ "-"
          ++ toString (2 * (p.conns cid).streamTracks.length + 1) →
        (handleRequest p cid req).2 = Outcome.genericErr "wrong interleaved value" ∧
        (handleRequest p cid req).1 = p) ∧
      (v = toString (2 * (p.conns cid).streamTracks.length) ++ "-"
          ++ toString (2 * (p.conns cid).streamTracks.length + 1) →
        (∃ res, (handleRequest p cid req).2 = Outcome.ok res ∧ res.statusCode = 200) ∧
        ((handleRequest p cid req).1.conns cid).streamTracks =
          (p.conns cid).streamTracks ++ [{ rtpPort := 0, rtcpPort := 0 }] ∧
        ((handleRequest p cid req).1.conns cid).streamProtocol = streamProtocol.tcp ∧
        ((handleRequest p cid req).1.conns cid).state = "PRE_RECORD") := by
  intro p cid req ur cs ts v n hm hu hcs hts hst huni hmode hpath hnudp htcp
    hproto hsdp hlen hint hv
  have he : handleRequest p cid req = handleSETUP p cid req cs (pathOf ur.path) := by
    simp [handleRequest, hcs, hu, hm]
  have e1 : toString (0 + (p.conns cid).streamTracks.length * 2) =
      toString (2 * (p.conns cid).streamTracks.length) := by
    congr 1
    omega
  have e2 : toString (1 + (p.conns cid).streamTracks.length * 2) =
      toString (2 * (p.conns cid).streamTracks.length + 1) := by
    congr 1
    omega
  obtain ⟨hne, heq⟩ :=
    setupRecordTcp_spec p cid (newTransportHeader ts) cs n v hproto hsdp hlen hint hv
  rw [e1, e2] at hne heq
  constructor
  · intro hv2
    rw [he, handleSETUP_record_dispatch p cid req cs (pathOf ur.path) ts hts hst huni
      hmode hpath, if_neg hnudp, if_pos htcp, hne hv2]
    exact ⟨rfl, rfl⟩
  · intro hv2
    rw [he, handleSETUP_record_dispatch p cid req cs (pathOf ur.path) ts hts hst huni
      hmode hpath, if_neg hnudp, if_pos htcp, heq hv2]
    refine ⟨⟨_, rfl, rfl⟩, ?_, ?_, ?_⟩ <;> simp [updConn]

/-- A state with connection 0 a TCP publisher in PRE_RECORD on `cam`
with one TCP track already set up out of a two-media SDP. -/
def progPreRecordTcp : Prog :=
  { clients := [0],
    conns := fun j => if j = 0 then
        { state := "PRE_RECORD", path := "cam", streamSdpText := "v=0",
          streamSdpParsed := some 2, streamProtocol := streamProtocol.tcp,
          streamTracks := [{ rtpPort := 0, rtcpPort := 0 }] }
      else {},
    publishers := fun q => if q = "cam" then some 0 else none,
    publishKey := "", rtpPort := 8000, rtcpPort := 8001, closedSockets := [] }

/-- The publisher TCP SETUP for the second track proposing the wrong
`interleaved=2-4`. -/
def reqSetupTcpWrongInterleaved : Request :=
  { method := "SETUP", urlRaw := "rtsp://h/cam",
    url := some { path := "/cam", queryOk := true, queryKey := none },
    headers := [("CSeq", "3"),
      ("Transport", "RTP/AVP/TCP;unicast;mode=record;interleaved=2-4")],
    content := "", contentMedias := none }

/-- The same SETUP proposing the expected `interleaved=2-3`. -/
def reqSetupTcpRightInterleaved : Request :=
  { method := "SETUP", urlRaw := "rtsp://h/cam",
    url := some { path := "/cam", queryOk := true, queryKey := none },
    headers := [("CSeq", "3"),
      ("Transport", "RTP/AVP/TCP;unicast;mode=record;interleaved=2-3")],
    content := "", contentMedias := none }

/-- C8 witness: on the publisher's second TCP track, `interleaved=2-4`
is rejected with the generic error while `interleaved=2-3` succeeds. -/
theorem c8_witness :
    (handleRequest progPreRecordTcp 0 reqSetupTcpWrongInterleaved).2 =
      Outcome.genericErr "wrong interleaved value" ∧
    (∃ res, (handleRequest progPreRecordTcp 0 reqSetupTcpRightInterleaved).2 =
      Outcome.ok res ∧ res.statusCode = 200) := by
  have hW := c8_publisher_tcp_interleaved progPreRecordTcp 0 reqSetupTcpWrongInterleaved
    { path := "/cam", queryOk := true, queryKey := none } "3"
    "RTP/AVP/TCP;unicast;mode=record;interleaved=2-4" "2-4" 2
    rfl rfl rfl rfl (Or.inr (by decide)) (by decide) (by decide) (by decide)
    (by decide) (by decide) (Or.inr (by decide)) (by decide) (by decide)
    (by decide) (by decide)
  have hR := c8_publisher_tcp_interleaved progPreRecordTcp 0 reqSetupTcpRightInterleaved
    { path := "/cam", queryOk := true, queryKey := none } "3"
    "RTP/AVP/TCP;unicast;mode=record;interleaved=2-3" "2-3" 2
    rfl rfl rfl rfl (Or.inr (by decide)) (by decide) (by decide) (by decide)
    (by decide) (by decide) (Or.inr (by decide)) (by decide) (by decide)
    (by decide) (by decide)
  exact ⟨(hW.1 (by decide)).1, (hR.2 (by decide)).1⟩

lemma handleDESCRIBE_fst (p : Prog) (cid : Nat) (req : Request) (cs pa : String) :
    (handleDESCRIBE p cid req cs pa).1 = p := by
  simp only [handleDESCRIBE]
  repeat' split
  all_goals rfl

lemma handlePLAY_fst (p : Prog) (cid : Nat) (cs pa : String) :
    (handlePLAY p cid cs pa).1 = p := by
  simp only [handlePLAY]
  repeat' split
  all_goals rfl

lemma handleRECORD_fst (p : Prog) (cid : Nat) (cs pa : String) :
    (handleRECORD p cid cs pa).1 = p := by
  simp only [handleRECORD]
  repeat' split
  all_goals rfl

lemma handlePAUSE_atomic (p : Prog) (cid : Nat) (cs pa : String) :
    (handlePAUSE p cid cs pa).1 = p ∨
    ∃ res, (handlePAUSE p cid cs pa).2 = Outcome.ok res := by
  simp only [handlePAUSE]
  repeat' split
  all_goals first
    | exact Or.inl rfl
    | exact Or.inr ⟨_, rfl⟩

lemma handleANNOUNCE_atomic (p : Prog) (cid : Nat) (req : Request) (ur : Url)
    (cs pa : String) :
    (handleANNOUNCE p cid req ur cs pa).1 = p ∨
    ∃ res, (handleANNOUNCE p cid req ur cs pa).2 = Outcome.ok res := by
  simp only [handleANNOUNCE]
  repeat' split
  all_goals first
    | exact Or.inl rfl
    | exact Or.inr ⟨_, rfl⟩

lemma setupReadUdp_atomic (p : Prog) (cid : Nat) (th : List String)
    (ts cs pa : String) :
    (setupReadUdp p cid th ts cs pa).1 = p ∨
    ∃ res, (setupReadUdp p cid th ts cs pa).2 = Outcome.ok res := by
  simp only [setupReadUdp]
  repeat' split
  all_goals first
    | exact Or.inl rfl
    | exact Or.inr ⟨_, rfl⟩

lemma setupReadTcp_atomic (p : Prog) (cid : Nat) (cs pa : String) :
    (setupReadTcp p cid cs pa).1 = p ∨
    ∃ res, (setupReadTcp p cid cs pa).2 = Outcome.ok res := by
  simp only [setupReadTcp]
  repeat' split
  all_goals first
    | exact Or.inl rfl
    | exact Or.inr ⟨_, rfl⟩

lemma setupRecordUdp_atomic (p : Prog) (cid : Nat) (th : List String)
    (ts cs : String) :
    (setupRecordUdp p cid th ts cs).1 = p ∨
    ∃ res, (setupRecordUdp p cid th ts cs).2 = Outcome.ok res := by
  simp only [setupRecordUdp]
  repeat' split
  all_goals first
    | exact Or.inl rfl
    | exact Or.inr ⟨_, rfl⟩

lemma setupRecordTcp_atomic (p : Prog) (cid : Nat) (th : List String)
    (cs : String) :
    (setupRecordTcp p cid th cs).1 = p ∨
    ∃ res, (setupRecordTcp p cid th cs).2 = Outcome.ok res := by
  simp only [setupRecordTcp]
  repeat' split
  all_goals first
    | exact Or.inl rfl
    | exact Or.inr ⟨_, rfl⟩

lemma handleSETUP_atomic (p : Prog) (cid : Nat) (req : Request) (cs pa : String) :
    (handleSETUP p cid req cs pa).1 = p ∨
    ∃ res, (handleSETUP p cid req cs pa).2 = Outcome.ok res := by
  simp only [handleSETUP]
  repeat' split
  all_goals first
    | exact Or.inl rfl
    | exact setupReadUdp_atomic _ _ _ _ _ _
    | exact setupReadTcp_atomic _ _ _ _
    | exact setupRecordUdp_atomic _ _ _ _ _
    | exact setupRecordTcp_atomic _ _ _ _

/-- C10: error atomicity of request handling — whenever
`handleRequest` returns an error other than the control sentinels
(`errPlay`, `errRecord`, `errTeardown`), i.e. a generic error or the
wrong-key error, the whole process state (every connection's fields,
the publishers map and the clients set) is exactly as it was before
the request. -/
theorem c10_error_atomicity :
    ∀ (p : Prog) (cid : Nat) (req : Request),
      (∀ m, (handleRequest p cid req).2 = Outcome.genericErr m →
        (handleRequest p cid req).1 = p) ∧
      ((handleRequest p cid req).2 = Outcome.wrongKey →
        (handleRequest p cid req).1 = p) := by
  intro p cid req
  have hat : (handleRequest p cid req).1 = p ∨
      (∃ res, (handleRequest p cid req).2 = Outcome.ok res) ∨
      (∃ res, (handleRequest p cid req).2 = Outcome.play res) ∨
      (∃ res, (handleRequest p cid req).2 = Outcome.record res) := by
    simp only [handleRequest]
    repeat' split
    all_goals first
      | exact Or.inl rfl
      | exact Or.inl (handleDESCRIBE_fst _ _ _ _ _)
      | exact Or.inl (handlePLAY_fst _ _ _ _)
      | exact Or.inl (handleRECORD_fst _ _ _ _)
      | (rcases handleANNOUNCE_atomic p cid req _ _ _ with h | ⟨r, hr⟩
         · exact Or.inl h
         · exact Or.inr (Or.inl ⟨r, hr⟩))
      | (rcases handlePAUSE_atomic p cid _ _ with h | ⟨r, hr⟩
         · exact Or.inl h
         · exact Or.inr (Or.inl ⟨r, hr⟩))
      | (rcases handleSETUP_atomic p cid req _ _ with h | ⟨r, hr⟩
         · exact Or.inl h
         · exact Or.inr (Or.inl ⟨r, hr⟩))
  constructor
  · intro m h
    rcases hat with h1 | ⟨r, hr⟩ | ⟨r, hr⟩ | ⟨r, hr⟩
    · exact h1
    all_goals rw [h] at hr; cases hr
  · intro h
    rcases hat with h1 | ⟨r, hr⟩ | ⟨r, hr⟩ | ⟨r, hr⟩
    · exact h1
    all_goals rw [h] at hr; cases hr

/-- C10 witness: a generic error (missing CSeq) and the wrong-key
error both leave the concrete states untouched. -/
theorem c10_witness :
    (handleRequest prog0 0 reqOptionsNoCseq).2 = Outcome.genericErr "cseq missing" ∧
    (handleRequest prog0 0 reqOptionsNoCseq).1 = prog0 ∧
    (handleRequest progOccupied 0 reqAnnounceWrongKey).2 = Outcome.wrongKey ∧
    (handleRequest progOccupied 0 reqAnnounceWrongKey).1 = progOccupied := by
  refine ⟨by decide, ?_, by decide, ?_⟩
  · exact (c10_error_atomicity prog0 0 reqOptionsNoCseq).1 "cseq missing" (by decide)
  · exact (c10_error_atomicity progOccupied 0 reqAnnounceWrongKey).2 (by decide)

lemma closeFuel_clients_subset :
    ∀ (fuel : Nat) (p : Prog) (c : Nat), (closeFuel fuel p c).clients ⊆ p.clients := by
  intro fuel
  induction fuel with
  | zero => exact fun p c x hx => hx
  | succ f ih =>
    intro p c
    have hfold : ∀ (l : List Nat) (acc : Prog),
        ((l.foldl (fun a oc => closeFuel f a oc) acc).clients) ⊆ acc.clients := by
      intro l
      induction l with
      | nil => exact fun acc x hx => hx
      | cons y t iht =>
        intro acc x hx
        exact ih acc y (iht (closeFuel f acc y) hx)
    rw [closeFuel]
    by_cases h1 : c ∈ p.clients
    · rw [if_pos h1]
      simp only []
      by_cases h2 : (p.conns c).path ≠ ""
      · rw [if_pos h2]
        cases hpb : p.publishers ((p.conns c).path) with
        | none => exact fun x hx => List.mem_of_mem_filter hx
        | some pubId =>
          simp only []
          by_cases h3 : pubId = c
          · rw [if_pos h3]
            intro x hx
            exact List.mem_of_mem_filter (hfold _ _ hx)
          · rw [if_neg h3]
            exact fun x hx => List.mem_of_mem_filter hx
      · rw [if_neg h2]
        exact fun x hx => List.mem_of_mem_filter hx
    · rw [if_neg h1]
      exact fun x hx => hx

lemma closeFuel_sockets_mono :
    ∀ (fuel : Nat) (p : Prog) (c : Nat),
      p.closedSockets ⊆ (closeFuel fuel p c).closedSockets := by
  intro fuel
  induction fuel with
  | zero => exact fun p c x hx => hx
  | succ f ih =>
    intro p c
    have hfold : ∀ (l : List Nat) (acc : Prog),
        acc.closedSockets ⊆ ((l.foldl (fun a oc => closeFuel f a oc) acc).closedSockets) := by
      intro l
      induction l with
      | nil => exact fun acc x hx => hx
      | cons y t iht =>
        intro acc x hx
        exact iht (closeFuel f acc y) (ih acc y hx)
    rw [closeFuel]
    by_cases h1 : c ∈ p.clients
    · rw [if_pos h1]
      simp only []
      by_cases h2 : (p.conns c).path ≠ ""
      · rw [if_pos h2]
        cases hpb : p.publishers ((p.conns c).path) with
        | none => exact fun x hx => List.mem_cons_of_mem _ hx
        | some pubId =>
          simp only []
          by_cases h3 : pubId = c
          · rw [if_pos h3]
            intro x hx
            exact hfold _ _ (List.mem_cons_of_mem _ hx)
          · rw [if_neg h3]
            exact fun x hx => List.mem_cons_of_mem _ hx
      · rw [if_neg h2]
        exact fun x hx => List.mem_cons_of_mem _ hx
    · rw [if_neg h1]
      exact fun x hx => hx

lemma closeFuel_fold_clients_subset (f : Nat) (l : List Nat) (acc : Prog) :
    ((l.foldl (fun a oc => closeFuel f a oc) acc).clients) ⊆ acc.clients := by
  induction l generalizing acc with
  | nil => exact fun x hx => hx
  | cons y t iht =>
    intro x hx
    exact closeFuel_clients_subset f acc y (iht (closeFuel f acc y) hx)

lemma closeFuel_fold_sockets_mono (f : Nat) (l : List Nat) (acc : Prog) :
    acc.closedSockets ⊆ ((l.foldl (fun a oc => closeFuel f a oc) acc).closedSockets) := by
  induction l generalizing acc with
  | nil => exact fun x hx => hx
  | cons y t iht =>
    intro x hx
    exact iht (closeFuel f acc y) (closeFuel_sockets_mono f acc y hx)

lemma closeFuel_cascade_step (f : Nat) (pp : Prog) (y : Nat) (pa : String)
    (hpa : pa ≠ "") (hy : (pp.conns y).path = pa) (hpub : pp.publishers pa = none) :
    closeFuel (f + 1) pp y =
      if y ∈ pp.clients then
        { pp with
          clients := pp.clients.filter (fun j => j ≠ y),
          closedSockets := y :: pp.closedSockets }
      else pp := by
  rw [closeFuel]
  by_cases h1 : y ∈ pp.clients
  · rw [if_pos h1, if_pos h1]
    simp only []
    rw [if_pos (show (pp.conns y).path ≠ "" from by rw [hy]; exact hpa)]
    rw [hy]
    try simp only []
    rw [hpub]
  · rw [if_neg h1, if_neg h1]

lemma closeFuel_cascade_fold (f : Nat) (pa : String) (hpa : pa ≠ "") :
    ∀ (l : List Nat) (acc : Prog),
      (∀ y ∈ l, (acc.conns y).path = pa) →
      acc.publishers pa = none →
      (l.foldl (fun a oc => closeFuel (f + 1) a oc) acc).clients =
          acc.clients.filter (fun j => j ∉ l) ∧
      (l.foldl (fun a oc => closeFuel (f + 1) a oc) acc).publishers = acc.publishers ∧
      (l.foldl (fun a oc => closeFuel (f + 1) a oc) acc).conns = acc.conns ∧
      (∀ x, x ∈ (l.foldl (fun a oc => closeFuel (f + 1) a oc) acc).closedSockets ↔
        (x ∈ acc.closedSockets ∨ (x ∈ l ∧ x ∈ acc.clients))) := by
  intro l
  induction l with
  | nil =>
    intro acc hpaths hpub
    refine ⟨(List.filter_eq_self.mpr (fun a _ => by simp)).symm, rfl, rfl, fun x => by simp⟩
  | cons y t iht =>
    intro acc hpaths hpub
    have hstep := closeFuel_cascade_step f acc y pa hpa (hpaths y (by simp)) hpub
    simp only [List.foldl_cons]
    rw [hstep]
    by_cases h1 : y ∈ acc.clients
    · rw [if_pos h1]
      obtain ⟨ih1, ih2, ih3, ih4⟩ := iht
        { acc with
          clients := acc.clients.filter (fun j => j ≠ y),
          closedSockets := y :: acc.closedSockets }
        (fun z hz => hpaths z (List.mem_cons_of_mem _ hz)) hpub
      refine ⟨?_, ?_, ?_, ?_⟩
      · rw [ih1]
        simp only []
        rw [List.filter_filter]
        apply List.filter_congr
        intro a _
        by_cases ha1 : a = y <;> by_cases ha2 : a ∈ t <;>
          simp [ha1, ha2, List.mem_cons]
      · rw [ih2]
      · rw [ih3]
      · intro x
        rw [ih4]
        simp only []
        constructor
        · rintro (hx | ⟨hxt, hxf⟩)
          · rcases List.mem_cons.mp hx with rfl | hx2
            · exact Or.inr ⟨by simp, h1⟩
            · exact Or.inl hx2
          · have hm := List.mem_filter.mp hxf
            exact Or.inr ⟨List.mem_cons_of_mem _ hxt, hm.1⟩
        · rintro (hx | ⟨hxc, hxm⟩)
          · exact Or.inl (List.mem_cons_of_mem _ hx)
          · rcases List.mem_cons.mp hxc with rfl | hxt
            · exact Or.inl (by simp)
            · by_cases hxy : x = y
              · exact Or.inl (by simp [hxy])
              · exact Or.inr ⟨hxt, List.mem_filter.mpr ⟨hxm, by simp [hxy]⟩⟩
    · rw [if_neg h1]
      obtain ⟨ih1, ih2, ih3, ih4⟩ := iht acc
        (fun z hz => hpaths z (List.mem_cons_of_mem _ hz)) hpub
      refine ⟨?_, ih2, ih3, ?_⟩
      · rw [ih1]
        apply List.filter_congr
        intro a ha
        have hay : a ≠ y := fun h => h1 (h ▸ ha)
        simp [List.mem_cons, hay]
      · intro x
        rw [ih4]
        constructor
        · rintro (hx | ⟨hxt, hxc⟩)
          · exact Or.inl hx
          · exact Or.inr ⟨List.mem_cons_of_mem _ hxt, hxc⟩
        · rintro (hx | ⟨hxc, hxm⟩)
          · exact Or.inl hx
          · rcases List.mem_cons.mp hxc with rfl | hxt
            · exact absurd hxm h1
            · exact Or.inr ⟨hxt, hxm⟩

lemma close_of_not_mem (p : Prog) (cid : Nat) (h : cid ∉ p.clients) :
    close p cid = p := by
  rw [close, closeFuel, if_neg h]

lemma close_removes (p : Prog) (cid : Nat) :
    cid ∉ (close p cid).clients ∧
    (cid ∈ p.clients → cid ∈ (close p cid).closedSockets) := by
  by_cases hin : cid ∈ p.clients
  · have h2 : cid ∉ (close p cid).clients ∧ cid ∈ (close p cid).closedSockets := by
      rw [close, closeFuel, if_pos hin]
      simp only []
      by_cases hp1 : (p.conns cid).path ≠ ""
      · rw [if_pos hp1]
        cases hpb : p.publishers ((p.conns cid).path) with
        | none => exact ⟨by simp, by simp⟩
        | some pubId =>
          simp only []
          by_cases hp2 : pubId = cid
          · rw [if_pos hp2]
            constructor
            · intro hx
              have hsub := closeFuel_fold_clients_subset _ _ _ hx
              simp at hsub
            · apply closeFuel_fold_sockets_mono
              simp
          · rw [if_neg hp2]
            exact ⟨by simp, by simp⟩
      · rw [if_neg hp1]
        exact ⟨by simp, by simp⟩
    exact ⟨h2.1, fun _ => h2.2⟩
  · rw [close_of_not_mem p cid hin]
    exact ⟨hin, fun h => absurd h hin⟩

lemma close_idem (p : Prog) (cid : Nat) : close (close p cid) cid = close p cid :=
  close_of_not_mem _ _ (close_removes p cid).1

lemma close_cascade (p : Prog) (cid : Nat) (pa : String)
    (hin : cid ∈ p.clients) (hpath : (p.conns cid).path = pa) (hpa : pa ≠ "")
    (hpub : p.publishers pa = some cid) :
    (close p cid).publishers pa = none ∧
    (∀ oc, oc ∈ p.clients → oc ≠ cid → (p.conns oc).path = pa →
      oc ∉ (close p cid).clients ∧ oc ∈ (close p cid).closedSockets) := by
  obtain ⟨f, hf⟩ : ∃ f, p.clients.length = f + 1 :=
    ⟨p.clients.length - 1, by have := List.length_pos_of_mem hin; omega⟩
  have hstep : close p cid =
      (List.foldl (fun acc oc => closeFuel (f + 1) acc oc)
        { clients := p.clients.filter (fun j => j ≠ cid),
          conns := p.conns,
          publishers := fun q => if q = pa then none else p.publishers q,
          publishKey := p.publishKey, rtpPort := p.rtpPort, rtcpPort := p.rtcpPort,
          closedSockets := cid :: p.closedSockets }
        (List.filter (fun oc => (p.conns oc).path = pa)
          (p.clients.filter (fun j => j ≠ cid)))) := by
    rw [close, closeFuel, if_pos hin]
    simp only []
    rw [if_pos (show (p.conns cid).path ≠ "" from by rw [hpath]; exact hpa), hpath]
    try simp only []
    rw [hpub]
    try simp only []
    rw [if_pos trivial, hf]
  obtain ⟨hc1, hc2, hc3, hc4⟩ := closeFuel_cascade_fold f pa hpa
    (List.filter (fun oc => (p.conns oc).path = pa)
      (p.clients.filter (fun j => j ≠ cid)))
    { clients := p.clients.filter (fun j => j ≠ cid),
      conns := p.conns,
      publishers := fun q => if q = pa then none else p.publishers q,
      publishKey := p.publishKey, rtpPort := p.rtpPort, rtcpPort := p.rtcpPort,
      closedSockets := cid :: p.closedSockets }
    (fun y hy =>
      (of_decide_eq_true (List.mem_filter.mp hy).2 : (p.conns y).path = pa))
    (by simp)
  constructor
  · rw [hstep, hc2]
    simp
  · intro oc hoc hne hop
    have hocl : oc ∈ p.clients.filter (fun j => j ≠ cid) :=
      List.mem_filter.mpr ⟨hoc, by simp [hne]⟩
    have hocL : oc ∈ List.filter (fun oc => (p.conns oc).path = pa)
        (p.clients.filter (fun j => j ≠ cid)) :=
      List.mem_filter.mpr ⟨hocl, by simp [hop]⟩
    constructor
    · rw [hstep, hc1]
      intro hcontra
      exact absurd hocL (of_decide_eq_true (List.mem_filter.mp hcontra).2)
    · rw [hstep]
      exact (hc4 oc).mpr (Or.inr ⟨hocL, hocl⟩)

/-- C2 (amended): `close` is idempotent (a second close is a no-op),
always removes the connection from the clients set and (when it was
still registered) closes its socket; and when the closed connection is
the registered publisher of its path and that path is nonempty, it
removes the publishers entry and closes every other connection bound
to that path.  (A publisher registered under the empty path is skipped
by the `c.path != ""` guard: see the counterexample.) -/
theorem c2_close_contract :
    ∀ (p : Prog) (cid : Nat),
      close (close p cid) cid = close p cid ∧
      cid ∉ (close p cid).clients ∧
      (cid ∈ p.clients → cid ∈ (close p cid).closedSockets) ∧
      (∀ pa, cid ∈ p.clients → (p.conns cid).path = pa → pa ≠ "" →
        p.publishers pa = some cid →
        (close p cid).publishers pa = none ∧
        ∀ oc, oc ∈ p.clients → oc ≠ cid → (p.conns oc).path = pa →
          oc ∉ (close p cid).clients ∧ oc ∈ (close p cid).closedSockets) := by
  intro p cid
  exact ⟨close_idem p cid, (close_removes p cid).1, (close_removes p cid).2,
    fun pa hin hpath hpa hpub => close_cascade p cid pa hin hpath hpa hpub⟩

/-- C2 counterexample: in the reachable state `progRootPlay`
connection 0 publishes on the empty path (bound by ANNOUNCE on
`rtsp://h/`) and connection 1 reads the same path; closing 0 removes
it from the clients set but — contrary to the claim — neither removes
`publishers[""]` nor closes the other connection on that path. -/
theorem c2_counterexample :
    (progRootPlay.conns 0).path = "" ∧
    progRootPlay.publishers "" = some 0 ∧
    0 ∈ progRootPlay.clients ∧ 1 ∈ progRootPlay.clients ∧
    (progRootPlay.conns 1).path = "" ∧
    0 ∉ (close progRootPlay 0).clients ∧
    (close progRootPlay 0).publishers "" = some 0 ∧
    1 ∈ (close progRootPlay 0).clients ∧
    1 ∉ (close progRootPlay 0).closedSockets := by
  refine ⟨by decide, by decide, by decide, by decide, by decide, by decide,
    by decide, by decide, by decide⟩

/-- `progOccupied` with an extra reader (connection 2) in PLAY on the
publisher's path `cam`. -/
def progOccupiedReader : Prog :=
  { progOccupied with
    clients := [0, 1, 2],
    conns := fun j =>
      if j = 2 then { state := "PLAY", path := "cam",
                      streamTracks := [{ rtpPort := 6000, rtcpPort := 6001 }] }
      else progOccupied.conns j }

/-- C2 witness: closing the publisher of the nonempty path `cam`
removes its publishers entry and closes the reader on `cam`; a second
close is a no-op. -/
theorem c2_witness :
    close (close progOccupiedReader 1) 1 = close progOccupiedReader 1 ∧
    1 ∉ (close progOccupiedReader 1).clients ∧
    (close progOccupiedReader 1).publishers "cam" = none ∧
    2 ∉ (close progOccupiedReader 1).clients ∧
    2 ∈ (close progOccupiedReader 1).closedSockets := by
  have h := c2_close_contract progOccupiedReader 1
  have hc := h.2.2.2 "cam" (by decide) (by decide) (by decide) (by decide)
  have ho := hc.2 2 (by decide) (by decide) (by decide)
  exact ⟨h.1, h.2.1, hc.1, ho.1, ho.2⟩
